/-
Verification of the Trello MCP server core (rate limiter, credential
manager, tool dispatcher, protocol handler) against its natural-language
specification.  The Python sources are shallowly embedded: time is modelled
by integers, `asyncio` suspension and locking by explicit state, fallible
code by `Option`/`Except`, and the upstream HTTP service together with the
interactive credential prompt by oracle parameters.
-/
import Mathlib

set_option linter.unusedVariables false
set_option linter.unnecessarySeqFocus false

/-! ## Rate limiter (`trello_client.py`, class `RateLimiter`)

`acquire()` runs under `async with self._lock`.  `asyncio.Lock` is not
reentrant: a task that re-acquires a lock it already holds suspends forever
when no other holder can release it.  The model threads a `lockHeld` flag:
the recursive call `return await self.acquire()` happens while the enclosing
`async with` block still holds the lock, so the model marks that frame
`lockHeld := true`, and an invocation entered with the lock already held is
modelled as `none` (blocked forever).  `fuel` bounds the recursion depth so
the definition is structurally recursive; the results are fuel-independent
(`acquireAux_fuel`). -/

namespace RateLimiter

/-- `self.requests = [t for t in self.requests if now - t < self.time_window]` -/
def prune (time_window now : ℤ) (requests : List ℤ) : List ℤ :=
  requests.filter (fun t => decide (now - t < time_window))

/-- One invocation of `RateLimiter.acquire` by a single task.
Returns the new `self.requests` list on admission, `none` if the call
blocks forever (re-acquiring the held non-reentrant lock, or `min([])`
raising `ValueError`). -/
def acquireAux (max_requests : Nat) (time_window : ℤ) :
    Nat → Bool → List ℤ → ℤ → Option (List ℤ)
  | _, true, _, _ => none
  | fuel, false, requests, now =>
    let pruned := prune time_window now requests
    if max_requests ≤ pruned.length then
      match pruned.min? with
      | none => none
      | some oldest_request =>
        let wait_time := time_window - (now - oldest_request)
        if 0 < wait_time then
          match fuel with
          | 0 => none
          | fuel + 1 =>
            acquireAux max_requests time_window fuel true pruned (now + wait_time)
        else some (pruned ++ [now])
    else some (pruned ++ [now])

/-- `acquire` entered with the lock free (the normal entry point). -/
def acquire (max_requests : Nat) (time_window : ℤ) (requests : List ℤ)
    (now : ℤ) : Option (List ℤ) :=
  acquireAux max_requests time_window 0 false requests now

/-- A sequence of `acquire()` calls at the given times, starting from the
stored list `requests`; `history` accumulates every recorded admission.
If any call blocks forever the whole run is `none`. -/
def runAcquires (max_requests : Nat) (time_window : ℤ) :
    List ℤ → List ℤ → List ℤ → Option (List ℤ × List ℤ)
  | requests, history, [] => some (requests, history)
  | requests, history, t :: ts =>
    match acquire max_requests time_window requests t with
    | none => none
    | some requests' => runAcquires max_requests time_window requests' (history ++ [t]) ts

/-- Number of recorded admissions inside the trailing window ending at `T`. -/
def countInWindow (time_window : ℤ) (admissions : List ℤ) (T : ℤ) : Nat :=
  (admissions.filter (fun t => decide (t ≤ T) && decide (T - t < time_window))).length

theorem acquireAux_locked (m : Nat) (w : ℤ) (fuel : Nat) (r : List ℤ) (n : ℤ) :
    acquireAux m w fuel true r n = none := by
  cases fuel <;> rfl

theorem acquireAux_fuel (m : Nat) (w : ℤ) (fuel : Nat) (r : List ℤ) (n : ℤ) :
    acquireAux m w fuel false r n = acquire m w r n := by
  cases fuel with
  | zero => rfl
  | succ fuel =>
    simp only [acquire, acquireAux]

/-- Closed form of a single (lock-free) `acquire` call: it admits exactly
when the pruned count is strictly below the maximum, and blocks forever
otherwise. -/
theorem acquire_eq (m : Nat) (w : ℤ) (r : List ℤ) (n : ℤ) :
    acquire m w r n =
      if (prune w n r).length < m then some (prune w n r ++ [n]) else none := by
  simp only [acquire, acquireAux]
  by_cases h : (prune w n r).length < m
  · have h' : ¬ m ≤ (prune w n r).length := by omega
    simp [h, h']
  · have h' : m ≤ (prune w n r).length := by omega
    simp only [h, if_false, h', if_true]
    cases hmin : (prune w n r).min? with
    | none => rfl
    | some oldest =>
      have hmem : oldest ∈ prune w n r :=
        List.min?_mem (fun a b => min_choice a b) hmin
      have hlt : n - oldest < w := by
        have := List.mem_filter.mp hmem
        exact of_decide_eq_true this.2
      have hw : 0 < w - (n - oldest) := by linarith
      simp [hw]

theorem length_filter_mono {α : Type} (l : List α) (p q : α → Bool)
    (h : ∀ x, p x = true → q x = true) :
    (l.filter p).length ≤ (l.filter q).length := by
  induction l with
  | nil => simp
  | cons a l ih =>
    simp only [List.filter_cons]
    by_cases hp : p a = true
    · rw [if_pos hp, if_pos (h a hp)]
      simpa using Nat.succ_le_succ ih
    · rw [if_neg hp]
      by_cases hqa : q a = true
      · rw [if_pos hqa]
        exact le_trans ih (by simp [Nat.le_succ])
      · rw [if_neg hqa]
        exact ih

/-- Invariant carried along a run of `acquire()` calls: the stored list is
exactly the recent part of the admission history, and every trailing window
over the history holds at most `m` admissions. -/
theorem runAcquires_inv (m : Nat) (w : ℤ) (hw : 0 < w) :
    ∀ (times : List ℤ) (n : ℤ) (requests history : List ℤ),
      List.Chain (· ≤ ·) n times →
      (∀ t ∈ history, t ≤ n) →
      requests = history.filter (fun t => decide (n - t < w)) →
      (∀ T, countInWindow w history T ≤ m) →
      ∀ final, runAcquires m w requests history times = some final →
        ∀ T, countInWindow w final.2 T ≤ m := by
  intro times
  induction times with
  | nil =>
    intro n requests history _ _ _ hcount final hrun T
    simp only [runAcquires, Option.some.injEq] at hrun
    subst hrun
    exact hcount T
  | cons t ts ih =>
    intro n requests history hchain hle hreq hcount final hrun T
    rcases List.chain_cons.mp hchain with ⟨hnt, hchain'⟩
    simp only [runAcquires, acquire_eq] at hrun
    by_cases hlen : (prune w t requests).length < m
    · simp only [hlen, if_true] at hrun
      -- the stored list after this admission is the recent history
      have hprune : prune w t requests =
          history.filter (fun x => decide (t - x < w)) := by
        rw [hreq]
        simp only [prune, List.filter_filter]
        refine List.filter_congr ?_
        intro x hx
        have hxn : x ≤ n := hle x hx
        by_cases hxt : t - x < w
        · have hxn' : n - x < w := by linarith
          simp [hxt, hxn']
        · simp [hxt]
      have hdt : decide (t - t < w) = true := decide_eq_true (by simpa using hw)
      have hnewreq : prune w t requests ++ [t] =
          (history ++ [t]).filter (fun x => decide (t - x < w)) := by
        rw [List.filter_append, hprune]
        simp [List.filter_cons, hdt, hw]
      refine ih t (prune w t requests ++ [t]) (history ++ [t]) hchain' ?_ hnewreq ?_ final hrun T
      · intro x hx
        rcases List.mem_append.mp hx with hx | hx
        · exact le_trans (hle x hx) hnt
        · simp only [List.mem_singleton] at hx
          exact le_of_eq hx
      · -- every window over the extended history still holds at most m
        intro T'
        by_cases hT : (decide (t ≤ T') && decide (T' - t < w)) = true
        · have hsub : countInWindow w history T' < m := by
            have hmono : countInWindow w history T' ≤
                (history.filter (fun x => decide (t - x < w))).length := by
              apply length_filter_mono
              intro x hx
              have h1 : x ≤ T' := of_decide_eq_true (Bool.and_elim_left hx)
              have h2 : T' - x < w := of_decide_eq_true (Bool.and_elim_right hx)
              have h3 : t ≤ T' := of_decide_eq_true (Bool.and_elim_left hT)
              have : t - x < w := by linarith
              simpa using this
            rw [← hprune] at hmono
            omega
          have hfil : ((history ++ [t]).filter
                (fun x => decide (x ≤ T') && decide (T' - x < w))).length
              = (history.filter (fun x => decide (x ≤ T') && decide (T' - x < w))).length
                  + 1 := by
            rw [List.filter_append, List.length_append]
            simp [List.filter_cons, hT]
          unfold countInWindow at hsub ⊢
          omega
        · have hfil : ((history ++ [t]).filter
                (fun x => decide (x ≤ T') && decide (T' - x < w))).length
              = (history.filter (fun x => decide (x ≤ T') && decide (T' - x < w))).length := by
            rw [List.filter_append, List.length_append]
            rw [Bool.not_eq_true] at hT
            simp [List.filter_cons, hT]
          unfold countInWindow
          rw [hfil]
          exact hcount T'
    · simp [hlen] at hrun

end RateLimiter

/-- C1: For every monotone sequence of `acquire()` calls that all complete,
no trailing window of `time_window` seconds ever contains more than
`max_requests` recorded admissions, and an admission is recorded only when,
after pruning entries older than the window, the count of remaining
admissions is strictly below the maximum. -/
theorem rateLimiter_window_bound (m : Nat) (w : ℤ) (times : List ℤ)
    (hw : 0 < w) (hmono : times.Chain' (· ≤ ·))
    (final : List ℤ × List ℤ)
    (hrun : RateLimiter.runAcquires m w [] [] times = some final) :
    (∀ T, RateLimiter.countInWindow w final.2 T ≤ m) ∧
    (∀ requests now newRequests,
        RateLimiter.acquire m w requests now = some newRequests →
          (RateLimiter.prune w now requests).length < m ∧
          newRequests = RateLimiter.prune w now requests ++ [now]) := by
  constructor
  · cases times with
    | nil =>
      simp only [RateLimiter.runAcquires, Option.some.injEq] at hrun
      subst hrun
      intro T
      simp [RateLimiter.countInWindow]
    | cons t ts =>
      simp only [RateLimiter.runAcquires, RateLimiter.acquire_eq] at hrun
      by_cases hm : (RateLimiter.prune w t []).length < m
      · have hm0 : 0 < m := by
          simpa [RateLimiter.prune] using hm
        simp only [hm, if_true] at hrun
        have hpr : RateLimiter.prune w t [] ++ [t] = [t] := by
          simp [RateLimiter.prune]
        rw [hpr] at hrun
        have hdt : decide (t - t < w) = true := decide_eq_true (by simpa using hw)
        have hchain : List.Chain (· ≤ ·) t ts := hmono
        refine RateLimiter.runAcquires_inv m w hw ts t [t] [t]
          hchain ?_ ?_ ?_ final hrun
        · intro x hx
          simp only [List.mem_singleton] at hx
          exact le_of_eq hx
        · simp [List.filter_cons, hw]
        · intro T'
          have : RateLimiter.countInWindow w [t] T' ≤ 1 := by
            unfold RateLimiter.countInWindow
            cases hb : (decide (t ≤ T') && decide (T' - t < w)) <;>
              simp [List.filter_cons, hb]
          omega
      · simp [hm] at hrun
  · intro requests now newRequests hacq
    rw [RateLimiter.acquire_eq] at hacq
    by_cases hlen : (RateLimiter.prune w now requests).length < m
    · simp only [hlen, if_true, Option.some.injEq] at hacq
      exact ⟨hlen, hacq.symm⟩
    · simp [hlen] at hacq

theorem rateLimiter_window_bound_witness :
    (∀ T, RateLimiter.countInWindow 3 ([4], ([0, 1, 4] : List ℤ)).2 T ≤ 2) ∧
    (∀ requests now newRequests,
        RateLimiter.acquire 2 3 requests now = some newRequests →
          (RateLimiter.prune 3 now requests).length < 2 ∧
          newRequests = RateLimiter.prune 3 now requests ++ [now]) :=
  rateLimiter_window_bound 2 3 [0, 1, 4] (by norm_num)
    (by norm_num [List.chain'_cons]) ([4], [0, 1, 4]) (by decide)

/-- C2: the code deadlocks instead.  Once the pruned window already holds
`max_requests` admissions, `acquire()` sleeps and then recursively calls
itself while the enclosing `async with` block still holds the non-reentrant
`asyncio.Lock`; the re-acquisition blocks forever, for every recursion
budget, so the admission is never recorded.  Concrete failing input:
`max_requests = 1`, `time_window = 10`, one admission recorded at `t = 0`,
`acquire()` called at `t = 5`. -/
theorem rateLimiter_acquire_deadlocks (fuel : Nat) :
    RateLimiter.acquireAux 1 10 fuel false [0] 5 = none := by
  rw [RateLimiter.acquireAux_fuel]
  decide

/-! ## Credential manager (`credential_manager.py`, class `CredentialManager`)

Wall-clock time (`datetime.now()`) is an integer number of minutes;
`cache_duration = timedelta(minutes=cache_duration_minutes)` is the same
number interpreted as a duration.  The interactive prompt loop
(`prompt_for_credentials`) reads from the user until a pair of strings of
length at least 32 is supplied; that external input loop is modelled by the
pair it finally accepts, passed in as `promptPair`. -/

structure CachedCredentials where
  api_key : String
  token : String
  username : Option String
  password : Option String
deriving DecidableEq

structure CredentialManager where
  cache_duration : ℤ
  cached_credentials : Option CachedCredentials
  credentials_timestamp : Option ℤ
deriving DecidableEq

namespace CredentialManager

/-- `is_cached_valid`: checks the cache and, as a side effect, clears it
when it has expired. -/
def is_cached_valid (cm : CredentialManager) (now : ℤ) :
    Bool × CredentialManager :=
  match cm.cached_credentials, cm.credentials_timestamp with
  | some _, some ts =>
    if cm.cache_duration < now - ts then
      (false, { cm with cached_credentials := none, credentials_timestamp := none })
    else (true, cm)
  | _, _ => (false, cm)

/-- `cache_credentials`: store the pair with a fresh timestamp. -/
def cache_credentials (cm : CredentialManager) (now : ℤ)
    (api_key token : String) (username password : Option String) :
    CredentialManager :=
  { cm with
    cached_credentials := some ⟨api_key, token, username, password⟩
    credentials_timestamp := some now }

/-- `get_cached_credentials`: the cached pair if still valid. -/
def get_cached_credentials (cm : CredentialManager) (now : ℤ) :
    Option (String × String) × CredentialManager :=
  let r := is_cached_valid cm now
  if r.1 then
    match r.2.cached_credentials with
    | some c => (some (c.api_key, c.token), r.2)
    | none => (none, r.2)
  else (none, r.2)

/-- `prompt_for_credentials`: invoke the interactive collaborator (modelled
by the accepted pair `promptPair`), cache the result, return it. -/
def prompt_for_credentials (cm : CredentialManager) (now : ℤ)
    (promptPair : String × String) : (String × String) × CredentialManager :=
  ((promptPair.1, promptPair.2),
    cache_credentials cm now promptPair.1 promptPair.2 none none)

/-- Priorities 2 and 3 of `get_or_prompt_credentials` (the fall-through
taken when the explicit pair is not fully present). -/
def get_or_prompt_fallback (cm : CredentialManager) (now : ℤ)
    (promptPair : String × String) : (String × String) × CredentialManager :=
  let r := get_cached_credentials cm now
  match r.1 with
  | some pair => (pair, r.2)
  | none => prompt_for_credentials r.2 now promptPair

/-- `get_or_prompt_credentials`: explicit pair (if both parts are truthy),
else valid cached pair, else interactive acquisition.  The parameters are
`Optional[str]` in the source; Python truthiness makes an empty string fall
through exactly like an absent one. -/
def get_or_prompt_credentials (cm : CredentialManager) (now : ℤ)
    (api_key token : Option String) (promptPair : String × String) :
    (String × String) × CredentialManager :=
  match api_key, token with
  | some k, some t =>
    if !k.isEmpty && !t.isEmpty then
      ((k, t), cache_credentials cm now k t none none)
    else get_or_prompt_fallback cm now promptPair
  | _, _ => get_or_prompt_fallback cm now promptPair

/-- `clear_credentials`. -/
def clear_credentials (cm : CredentialManager) : CredentialManager :=
  { cm with cached_credentials := none, credentials_timestamp := none }

end CredentialManager

/-- Python truthiness of an `Optional[str]` value: `None` and `""` are falsy. -/
def truthyOptStr : Option String → Bool
  | none => false
  | some s => !s.isEmpty

/-- Case analysis of `get_or_prompt_credentials` (shared helper): explicit
pair, valid cache, fall-through to the prompt, and the partial-pair
fall-through. -/
theorem get_or_prompt_cases
    (cm : CredentialManager) (now : ℤ) (promptPair : String × String) :
    (∀ k t : String, k.isEmpty = false → t.isEmpty = false →
      CredentialManager.get_or_prompt_credentials cm now (some k) (some t) promptPair
        = ((k, t), CredentialManager.cache_credentials cm now k t none none) ∧
      (CredentialManager.cache_credentials cm now k t none none).credentials_timestamp
        = some now) ∧
    (∀ api_key token : Option String, ∀ c ts,
      (truthyOptStr api_key && truthyOptStr token) = false →
      cm.cached_credentials = some c → cm.credentials_timestamp = some ts →
      now - ts ≤ cm.cache_duration →
      CredentialManager.get_or_prompt_credentials cm now api_key token promptPair
        = ((c.api_key, c.token), cm)) ∧
    (∀ api_key token : Option String,
      (truthyOptStr api_key && truthyOptStr token) = false →
      (CredentialManager.is_cached_valid cm now).1 = false →
      CredentialManager.get_or_prompt_credentials cm now api_key token promptPair
        = ((promptPair.1, promptPair.2),
           CredentialManager.cache_credentials cm now promptPair.1 promptPair.2
             none none)) ∧
    (∀ api_key token : Option String,
      (truthyOptStr api_key && truthyOptStr token) = false →
      CredentialManager.get_or_prompt_credentials cm now api_key token promptPair
        = CredentialManager.get_or_prompt_fallback cm now promptPair) := by
  have hfall : ∀ api_key token : Option String,
      (truthyOptStr api_key && truthyOptStr token) = false →
      CredentialManager.get_or_prompt_credentials cm now api_key token promptPair
        = CredentialManager.get_or_prompt_fallback cm now promptPair := by
    intro api_key token hft
    cases api_key with
    | none => rfl
    | some k =>
      cases token with
      | none => rfl
      | some t =>
        simp only [truthyOptStr] at hft
        simp [CredentialManager.get_or_prompt_credentials, hft]
  refine ⟨?_, ?_, ?_, hfall⟩
  · intro k t hk ht
    constructor
    · simp [CredentialManager.get_or_prompt_credentials, hk, ht]
    · rfl
  · intro api_key token c ts hft hc hts hle
    rw [hfall api_key token hft]
    have hnotlt : ¬ cm.cache_duration < now - ts := not_lt.mpr hle
    simp [CredentialManager.get_or_prompt_fallback,
      CredentialManager.get_cached_credentials,
      CredentialManager.is_cached_valid, hc, hts, hnotlt]
  · intro api_key token hft hinvalid
    rw [hfall api_key token hft]
    unfold CredentialManager.get_or_prompt_fallback
      CredentialManager.get_cached_credentials
    unfold CredentialManager.is_cached_valid at hinvalid ⊢
    cases hc : cm.cached_credentials with
    | none =>
      simp [hc, CredentialManager.prompt_for_credentials,
        CredentialManager.cache_credentials]
    | some c =>
      cases hts : cm.credentials_timestamp with
      | none =>
        simp [hc, hts, CredentialManager.prompt_for_credentials,
          CredentialManager.cache_credentials]
      | some ts =>
        simp only [hc, hts] at hinvalid
        by_cases hexp : cm.cache_duration < now - ts
        · simp [hc, hts, hexp, CredentialManager.prompt_for_credentials,
            CredentialManager.cache_credentials]
        · simp [hc, hts, hexp] at hinvalid

/-- C6: credential resolution is first-match-wins.  (1) a fully present
explicit pair is returned and rewrites the cache with a fresh timestamp;
(2) otherwise a still-valid cached pair is returned with the state (and in
particular the timestamp) untouched; (3) otherwise the interactive
collaborator is invoked and its pair is cached with a fresh timestamp.  A
partial (or empty-string) explicit pair never takes path 1: it takes the
same fall-through as an absent one. -/
theorem credentialManager_resolution_priority
    (cm : CredentialManager) (now : ℤ) (promptPair : String × String) :
    (∀ k t : String, k.isEmpty = false → t.isEmpty = false →
      CredentialManager.get_or_prompt_credentials cm now (some k) (some t) promptPair
        = ((k, t), CredentialManager.cache_credentials cm now k t none none) ∧
      (CredentialManager.cache_credentials cm now k t none none).credentials_timestamp
        = some now) ∧
    (∀ api_key token : Option String, ∀ c ts,
      (truthyOptStr api_key && truthyOptStr token) = false →
      cm.cached_credentials = some c → cm.credentials_timestamp = some ts →
      now - ts ≤ cm.cache_duration →
      CredentialManager.get_or_prompt_credentials cm now api_key token promptPair
        = ((c.api_key, c.token), cm)) ∧
    (∀ api_key token : Option String,
      (truthyOptStr api_key && truthyOptStr token) = false →
      (CredentialManager.is_cached_valid cm now).1 = false →
      CredentialManager.get_or_prompt_credentials cm now api_key token promptPair
        = ((promptPair.1, promptPair.2),
           CredentialManager.cache_credentials cm now promptPair.1 promptPair.2
             none none)) ∧
    (∀ api_key token : Option String,
      (truthyOptStr api_key && truthyOptStr token) = false →
      CredentialManager.get_or_prompt_credentials cm now api_key token promptPair
        = CredentialManager.get_or_prompt_fallback cm now promptPair) :=
  get_or_prompt_cases cm now promptPair

theorem credentialManager_resolution_priority_witness :
    (CredentialManager.get_or_prompt_credentials ⟨480, none, none⟩ 100
        (some ("K")) (some ("T")) (("PK"), ("PT"))
      = ((("K"), ("T")),
         CredentialManager.cache_credentials ⟨480, none, none⟩ 100 ("K") ("T")
           none none)) ∧
    (CredentialManager.get_or_prompt_credentials
        ⟨480, some ⟨("CK"), ("CT"), none, none⟩, some 40⟩ 100 none none
        (("PK"), ("PT"))
      = ((("CK"), ("CT")), ⟨480, some ⟨("CK"), ("CT"), none, none⟩, some 40⟩)) ∧
    (CredentialManager.get_or_prompt_credentials ⟨480, none, none⟩ 100
        (some ("")) (some ("T")) (("PK"), ("PT"))
      = ((("PK"), ("PT")),
         CredentialManager.cache_credentials ⟨480, none, none⟩ 100 ("PK") ("PT")
           none none)) := by
  refine ⟨?_, ?_, ?_⟩
  · exact ((credentialManager_resolution_priority ⟨480, none, none⟩ 100
      (("PK"), ("PT"))).1 ("K") ("T") (by decide) (by decide)).1
  · exact (credentialManager_resolution_priority
      ⟨480, some ⟨("CK"), ("CT"), none, none⟩, some 40⟩ 100
      (("PK"), ("PT"))).2.1 none none ⟨("CK"), ("CT"), none, none⟩ 40
      (by decide) rfl rfl (by decide)
  · exact (credentialManager_resolution_priority ⟨480, none, none⟩ 100
      (("PK"), ("PT"))).2.2.1 (some ("")) (some ("T")) (by decide) rfl

/-- C7: a cached entry is valid exactly while `now - timestamp` is at most
`cache_duration`; with no explicit credentials, a resolution before expiry
returns the cached pair without invoking interactive acquisition (state
untouched), and a resolution after expiry falls through to the interactive
collaborator. -/
theorem credentialManager_cache_expiry (dur ts now : ℤ) (c : CachedCredentials)
    (promptPair : String × String) :
    ((CredentialManager.is_cached_valid ⟨dur, some c, some ts⟩ now).1 = true ↔
      now - ts ≤ dur) ∧
    (now - ts ≤ dur →
      CredentialManager.get_or_prompt_credentials ⟨dur, some c, some ts⟩ now
          none none promptPair
        = ((c.api_key, c.token), ⟨dur, some c, some ts⟩)) ∧
    (dur < now - ts →
      CredentialManager.get_or_prompt_credentials ⟨dur, some c, some ts⟩ now
          none none promptPair
        = ((promptPair.1, promptPair.2),
           CredentialManager.cache_credentials ⟨dur, some c, some ts⟩ now
             promptPair.1 promptPair.2 none none)) := by
  refine ⟨?_, ?_, ?_⟩
  · unfold CredentialManager.is_cached_valid
    by_cases h : dur < now - ts
    · simp [h]
      omega
    · simp [h]
      omega
  · intro hle
    exact (get_or_prompt_cases ⟨dur, some c, some ts⟩ now
      promptPair).2.1 none none c ts (by decide) rfl rfl hle
  · intro hexp
    refine (get_or_prompt_cases ⟨dur, some c, some ts⟩ now
      promptPair).2.2.1 none none (by decide) ?_
    unfold CredentialManager.is_cached_valid
    simp [hexp]

theorem credentialManager_cache_expiry_witness :
    ((CredentialManager.is_cached_valid
        ⟨480, some ⟨("CK"), ("CT"), none, none⟩, some 0⟩ 480).1 = true ↔
      (480 : ℤ) - 0 ≤ 480) ∧
    (CredentialManager.get_or_prompt_credentials
        ⟨480, some ⟨("CK"), ("CT"), none, none⟩, some 0⟩ 480 none none
        (("PK"), ("PT"))
      = ((("CK"), ("CT")), ⟨480, some ⟨("CK"), ("CT"), none, none⟩, some 0⟩)) ∧
    (CredentialManager.get_or_prompt_credentials
        ⟨480, some ⟨("CK"), ("CT"), none, none⟩, some 0⟩ 481 none none
        (("PK"), ("PT"))
      = ((("PK"), ("PT")),
         CredentialManager.cache_credentials
           ⟨480, some ⟨("CK"), ("CT"), none, none⟩, some 0⟩ 481 ("PK") ("PT")
           none none)) := by
  refine ⟨?_, ?_, ?_⟩
  · exact (credentialManager_cache_expiry 480 0 480 ⟨("CK"), ("CT"), none, none⟩
      (("PK"), ("PT"))).1
  · exact (credentialManager_cache_expiry 480 0 480 ⟨("CK"), ("CT"), none, none⟩
      (("PK"), ("PT"))).2.1 (by decide)
  · exact (credentialManager_cache_expiry 480 0 481 ⟨("CK"), ("CT"), none, none⟩
      (("PK"), ("PT"))).2.2 (by decide)

/-! ## JSON values and argument maps

Decoded JSON as passed around in Python dicts.  Numbers are modelled as
integers (no verified property involves non-integral numbers). -/

inductive JVal where
  | null
  | bool (b : Bool)
  | num (n : ℤ)
  | str (s : String)
  | arr (xs : List JVal)
  | obj (fields : List (String × JVal))

/-- Python truthiness of a decoded-JSON value. -/
def pyTruthy : JVal → Bool
  | JVal.null => false
  | JVal.bool b => b
  | JVal.num n => decide (n ≠ 0)
  | JVal.str s => !s.isEmpty
  | JVal.arr xs => !xs.isEmpty
  | JVal.obj fs => !fs.isEmpty

/-- Python `str()` of a decoded-JSON value, as interpolated by f-strings.
The exact rendering of containers is not modelled (no verified property
depends on it). -/
def pyShow : JVal → String
  | JVal.null => "None"
  | JVal.bool true => "True"
  | JVal.bool false => "False"
  | JVal.num n => toString n
  | JVal.str s => s
  | JVal.arr _ => "[...]"
  | JVal.obj _ => "\x7b...\x7d"

/-- A Python dict of keyword arguments (`Dict[str, Any]`). -/
abbrev Args := List (String × JVal)

/-- `arguments.get(k)`. -/
def argGet (args : Args) (k : String) : Option JVal :=
  (args.find? (fun p => p.1 == k)).map (fun p => p.2)

/-- `arguments.get(k)` read at type `str`, matching the source annotations.
A non-string value in a string-typed slot is treated as absent; the
coercions the validation library would apply to such values are outside the
model. -/
def argStr (args : Args) (k : String) : Option String :=
  match argGet args k with
  | some (JVal.str s) => some s
  | _ => none

/-- `arguments.get(k)` read at type `bool`. -/
def argBool (args : Args) (k : String) : Option Bool :=
  match argGet args k with
  | some (JVal.bool b) => some b
  | _ => none

/-- `arguments.get(k)` read at type `List[str]`. -/
def argStrList (args : Args) (k : String) : Option (List String) :=
  match argGet args k with
  | some (JVal.arr xs) =>
    xs.foldr (fun x acc =>
      match x, acc with
      | JVal.str s, some l => some (s :: l)
      | _, _ => none) (some [])
  | _ => none

/-- `arguments.get(k)` read at type `dict`. -/
def argObj (args : Args) (k : String) : Option (List (String × JVal)) :=
  match argGet args k with
  | some (JVal.obj fs) => some fs
  | _ => none

/-- `arguments.get(k)` read at type `int`. -/
def argNum (args : Args) (k : String) : Option ℤ :=
  match argGet args k with
  | some (JVal.num n) => some n
  | _ => none

/-- `.get(k)` on a decoded-JSON object, `none` when the key is missing.
Python would raise `AttributeError` on a non-dict; the handlers only apply
this to upstream response values, and a missing-field default is returned
instead (no verified property exercises that corner). -/
def jget (v : JVal) (k : String) : Option JVal :=
  match v with
  | JVal.obj fs => (fs.find? (fun p => p.1 == k)).map (fun p => p.2)
  | _ => none

/-- `.get(k, default)`. -/
def jgetD (v : JVal) (k : String) (default : JVal) : JVal :=
  match jget v k with
  | some x => x
  | none => default

/-- f-string interpolation of an `Optional[str]` (Python renders `None`). -/
def pyStrOpt : Option String → String
  | none => "None"
  | some s => s

/-! ## Upstream adapter (`trello_client.py`, class `TrelloClient`)

The HTTP service is an oracle mapping each outbound call to its answer.
Every issued call first passes `rate_limiter.acquire()`; the list of issued
calls returned alongside each result is therefore also the list of
rate-limiter admissions the operation consumed. -/

structure UpstreamCall where
  verb : String
  endpoint : String
  params : List (String × JVal)
  json_data : Option JVal

inductive UpstreamAnswer where
  | okJson (v : JVal)
  | okText (s : String)
  | httpStatus (code : Nat) (body : String)
  | network (msg : String)

abbrev Upstream := UpstreamCall → UpstreamAnswer

structure TrelloAPIError where
  message : String
  status_code : Option Nat
  response_data : Option String

/-- `dict.update` for one key: overwrite in place or append. -/
def dictSet (ps : List (String × JVal)) (k : String) (v : JVal) :
    List (String × JVal) :=
  if ps.any (fun p => p.1 == k) then
    ps.map (fun p => if p.1 == k then (k, v) else p)
  else ps ++ [(k, v)]

/-- Python `str.strip()`: drop leading and trailing whitespace.  Defined
over the character list so that it evaluates by kernel reduction. -/
def pyStrip (s : String) : String :=
  ⟨((s.data.dropWhile Char.isWhitespace).reverse.dropWhile
      Char.isWhitespace).reverse⟩

structure TrelloCredentials where
  api_key : String
  token : String

/-- `TrelloCredentials(...)` with the `validate_not_empty` validator: empty
or all-whitespace parts are rejected, accepted parts are stripped.  (The
validation library wraps the message; the model keeps the inner message, on
which no verified property depends.) -/
def TrelloCredentials.make (api_key token : String) :
    Except String TrelloCredentials :=
  if (pyStrip api_key).isEmpty then Except.error ("API key and token cannot be empty")
  else if (pyStrip token).isEmpty then Except.error ("API key and token cannot be empty")
  else Except.ok ⟨pyStrip api_key, pyStrip token⟩

namespace TrelloClient

/-- `_make_request`: merge the credential pair into the parameters under
`key`/`token`, issue the call, and map the HTTP status to `TrelloAPIError`
exactly as the source does. -/
def make_request (upstream : Upstream) (verb endpoint : String)
    (credentials : TrelloCredentials) (params : List (String × JVal))
    (json_data : Option JVal) :
    Except TrelloAPIError JVal × List UpstreamCall :=
  let ps := dictSet (dictSet params ("key") (JVal.str credentials.api_key))
      ("token") (JVal.str credentials.token)
  let call : UpstreamCall := ⟨verb, endpoint, ps, json_data⟩
  let res : Except TrelloAPIError JVal :=
    match upstream call with
    | UpstreamAnswer.okJson v => Except.ok v
    | UpstreamAnswer.okText s => Except.ok (JVal.obj [(("result"), JVal.str s)])
    | UpstreamAnswer.httpStatus 401 body =>
      Except.error ⟨("Unauthorized - check your API key and token"), some 401, some body⟩
    | UpstreamAnswer.httpStatus 403 body =>
      Except.error ⟨("Forbidden - insufficient permissions"), some 403, some body⟩
    | UpstreamAnswer.httpStatus 404 body =>
      Except.error ⟨("Not found - the requested resource does not exist"), some 404, some body⟩
    | UpstreamAnswer.httpStatus 429 body =>
      Except.error ⟨("Rate limit exceeded"), some 429, some body⟩
    | UpstreamAnswer.httpStatus code body =>
      Except.error ⟨("API request failed with status ") ++ toString code, some code, some body⟩
    | UpstreamAnswer.network m =>
      Except.error ⟨("Network error: ") ++ m, none, none⟩
  (res, [call])

inductive ValidationOutcome where
  | valid (user_info : JVal)
  | invalid (err : String)

/-- `validate_credentials`: lightweight identity check against `members/me`;
`str(e)` of a `TrelloAPIError` is its message. -/
def validate_credentials (upstream : Upstream)
    (credentials : TrelloCredentials) :
    ValidationOutcome × List UpstreamCall :=
  let r := make_request upstream ("GET") ("members/me") credentials
      [(("fields"), JVal.str ("id,username,fullName,email"))] none
  match r.1 with
  | Except.ok v => (ValidationOutcome.valid v, r.2)
  | Except.error e => (ValidationOutcome.invalid e.message, r.2)

end TrelloClient

/-! ## Request models (`schemas.py`)

Constructors run the declared validators and reject a missing required
field, as the validation library does.  The library wraps error messages in
an envelope naming the field; the model keeps the inner message (no
verified property depends on the wrapper text).  Loosely-typed optional
fields (`pos`) pass through as raw JSON values; scalar coercions the
library would apply there are outside the model. -/

/-- A `datetime` value, identified by its ISO rendering; `fromisoformat` is
external stdlib behaviour and enters as the `parseIso` oracle. -/
structure PyDateTime where
  iso : String

def PyDateTime.isoformat (d : PyDateTime) : String := d.iso

structure CreateBoardRequest where
  name : String
  desc : Option String
  organization_id : Option String
  default_lists : Bool
  prefs : Option (List (String × JVal))

def CreateBoardRequest.make (name desc organization_id : Option String)
    (default_lists : Bool) (prefs : Option (List (String × JVal))) :
    Except String CreateBoardRequest :=
  match name with
  | none => Except.error ("none is not an allowed value")
  | some n =>
    if (pyStrip n).isEmpty then Except.error ("Board name cannot be empty")
    else if 16384 < (pyStrip n).length then
      Except.error ("Board name cannot exceed 16384 characters")
    else Except.ok ⟨pyStrip n, desc, organization_id, default_lists, prefs⟩

structure UpdateBoardRequest where
  name : Option String
  desc : Option String
  closed : Option Bool
  prefs : Option (List (String × JVal))

def UpdateBoardRequest.make (name desc : Option String) (closed : Option Bool)
    (prefs : Option (List (String × JVal))) : Except String UpdateBoardRequest :=
  match name with
  | none => Except.ok ⟨none, desc, closed, prefs⟩
  | some n =>
    if (pyStrip n).isEmpty then Except.error ("Board name cannot be empty")
    else if 16384 < (pyStrip n).length then
      Except.error ("Board name cannot exceed 16384 characters")
    else Except.ok ⟨some (pyStrip n), desc, closed, prefs⟩

structure CreateListRequest where
  name : String
  board_id : String
  pos : Option JVal

def CreateListRequest.make (name board_id : Option String) (pos : Option JVal) :
    Except String CreateListRequest :=
  match name with
  | none => Except.error ("none is not an allowed value")
  | some n =>
    if (pyStrip n).isEmpty then Except.error ("List name cannot be empty")
    else if 16384 < (pyStrip n).length then
      Except.error ("List name cannot exceed 16384 characters")
    else
      match board_id with
      | none => Except.error ("none is not an allowed value")
      | some b =>
        if (pyStrip b).isEmpty then Except.error ("Board ID cannot be empty")
        else Except.ok ⟨pyStrip n, pyStrip b, pos⟩

structure CreateCardRequest where
  name : String
  list_id : String
  desc : Option String
  pos : Option JVal
  due : Option PyDateTime
  labels : Option (List String)
  members : Option (List String)

def CreateCardRequest.make (name list_id desc : Option String)
    (pos : Option JVal) (due : Option PyDateTime)
    (labels members : Option (List String)) : Except String CreateCardRequest :=
  match name with
  | none => Except.error ("none is not an allowed value")
  | some n =>
    if (pyStrip n).isEmpty then Except.error ("Card name cannot be empty")
    else if 16384 < (pyStrip n).length then
      Except.error ("Card name cannot exceed 16384 characters")
    else
      match list_id with
      | none => Except.error ("none is not an allowed value")
      | some l =>
        if (pyStrip l).isEmpty then Except.error ("List ID cannot be empty")
        else Except.ok ⟨pyStrip n, pyStrip l, desc, pos, due, labels, members⟩

structure UpdateCardRequest where
  name : Option String
  desc : Option String
  closed : Option Bool
  list_id : Option String
  pos : Option JVal
  due : Option PyDateTime

def UpdateCardRequest.make (name desc : Option String) (closed : Option Bool)
    (list_id : Option String) (pos : Option JVal) (due : Option PyDateTime) :
    Except String UpdateCardRequest :=
  match name with
  | none => Except.ok ⟨none, desc, closed, list_id, pos, due⟩
  | some n =>
    if (pyStrip n).isEmpty then Except.error ("Card name cannot be empty")
    else if 16384 < (pyStrip n).length then
      Except.error ("Card name cannot exceed 16384 characters")
    else Except.ok ⟨some (pyStrip n), desc, closed, list_id, pos, due⟩

structure SearchRequest where
  query : String
  board_ids : Option (List String)
  limit : Option ℤ

def SearchRequest.make (query : Option String) (board_ids : Option (List String))
    (limit : Option ℤ) : Except String SearchRequest :=
  match query with
  | none => Except.error ("none is not an allowed value")
  | some q =>
    if (pyStrip q).isEmpty then Except.error ("Search query cannot be empty")
    else
      match limit with
      | some l =>
        if l < 1 ∨ 1000 < l then Except.error ("Limit must be between 1 and 1000")
        else Except.ok ⟨pyStrip q, board_ids, limit⟩
      | none => Except.ok ⟨pyStrip q, board_ids, none⟩

/-- `response if isinstance(response, list) else []`. -/
def asList : JVal → List JVal
  | JVal.arr xs => xs
  | _ => []

namespace TrelloClient

def list_boards (upstream : Upstream) (credentials : TrelloCredentials) :
    Except TrelloAPIError (List JVal) × List UpstreamCall :=
  let r := make_request upstream ("GET") ("members/me/boards") credentials
      [(("fields"), JVal.str ("id,name,desc,closed,url,prefs")),
       (("filter"), JVal.str ("open"))] none
  match r.1 with
  | Except.ok v => (Except.ok (asList v), r.2)
  | Except.error e => (Except.error e, r.2)

def get_board (upstream : Upstream) (credentials : TrelloCredentials)
    (board_id : Option String) : Except TrelloAPIError JVal × List UpstreamCall :=
  make_request upstream ("GET") (("boards/") ++ pyStrOpt board_id) credentials
    [(("fields"), JVal.str ("id,name,desc,closed,url,prefs,labelNames")),
     (("lists"), JVal.str ("open")),
     (("cards"), JVal.str ("open")),
     (("members"), JVal.str ("all"))] none

def create_board (upstream : Upstream) (credentials : TrelloCredentials)
    (request : CreateBoardRequest) :
    Except TrelloAPIError JVal × List UpstreamCall :=
  let params0 : List (String × JVal) :=
    [(("name"), JVal.str request.name),
     (("defaultLists"), JVal.bool request.default_lists)]
  let params1 := match request.desc with
    | some d => if d.isEmpty then params0 else params0 ++ [(("desc"), JVal.str d)]
    | none => params0
  let params2 := match request.organization_id with
    | some o => if o.isEmpty then params1
        else params1 ++ [(("idOrganization"), JVal.str o)]
    | none => params1
  let params3 := match request.prefs with
    | some fs => if fs.isEmpty then params2
        else params2 ++ fs.map (fun p => (("prefs_") ++ p.1, p.2))
    | none => params2
  make_request upstream ("POST") ("boards") credentials params3 none

def update_board (upstream : Upstream) (credentials : TrelloCredentials)
    (board_id : Option String) (request : UpdateBoardRequest) :
    Except TrelloAPIError JVal × List UpstreamCall :=
  let params0 : List (String × JVal) := []
  let params1 := match request.name with
    | some n => params0 ++ [(("name"), JVal.str n)]
    | none => params0
  let params2 := match request.desc with
    | some d => params1 ++ [(("desc"), JVal.str d)]
    | none => params1
  let params3 := match request.closed with
    | some c => params2 ++ [(("closed"), JVal.bool c)]
    | none => params2
  let params4 := match request.prefs with
    | some fs => if fs.isEmpty then params3
        else params3 ++ fs.map (fun p => (("prefs_") ++ p.1, p.2))
    | none => params3
  make_request upstream ("PUT") (("boards/") ++ pyStrOpt board_id) credentials
    params4 none

def get_lists (upstream : Upstream) (credentials : TrelloCredentials)
    (board_id : Option String) :
    Except TrelloAPIError (List JVal) × List UpstreamCall :=
  let r := make_request upstream ("GET")
      (("boards/") ++ pyStrOpt board_id ++ ("/lists")) credentials
      [(("fields"), JVal.str ("id,name,closed,pos")),
       (("filter"), JVal.str ("open"))] none
  match r.1 with
  | Except.ok v => (Except.ok (asList v), r.2)
  | Except.error e => (Except.error e, r.2)

def create_list (upstream : Upstream) (credentials : TrelloCredentials)
    (request : CreateListRequest) :
    Except TrelloAPIError JVal × List UpstreamCall :=
  let params0 : List (String × JVal) :=
    [(("name"), JVal.str request.name), (("idBoard"), JVal.str request.board_id)]
  let params1 := match request.pos with
    | some p => params0 ++ [(("pos"), p)]
    | none => params0
  make_request upstream ("POST") ("lists") credentials params1 none

def get_cards (upstream : Upstream) (credentials : TrelloCredentials)
    (board_id list_id : Option String) :
    Except TrelloAPIError (List JVal) × List UpstreamCall :=
  if truthyOptStr list_id then
    let r := make_request upstream ("GET")
        (("lists/") ++ pyStrOpt list_id ++ ("/cards")) credentials
        [(("fields"), JVal.str ("id,name,desc,closed,due,url,labels,members")),
         (("filter"), JVal.str ("open"))] none
    match r.1 with
    | Except.ok v => (Except.ok (asList v), r.2)
    | Except.error e => (Except.error e, r.2)
  else if truthyOptStr board_id then
    let r := make_request upstream ("GET")
        (("boards/") ++ pyStrOpt board_id ++ ("/cards")) credentials
        [(("fields"), JVal.str ("id,name,desc,closed,due,url,labels,members")),
         (("filter"), JVal.str ("open"))] none
    match r.1 with
    | Except.ok v => (Except.ok (asList v), r.2)
    | Except.error e => (Except.error e, r.2)
  else
    (Except.error ⟨("Either board_id or list_id must be provided"), none, none⟩, [])

def create_card (upstream : Upstream) (credentials : TrelloCredentials)
    (request : CreateCardRequest) :
    Except TrelloAPIError JVal × List UpstreamCall :=
  let params0 : List (String × JVal) :=
    [(("name"), JVal.str request.name), (("idList"), JVal.str request.list_id)]
  let params1 := match request.desc with
    | some d => if d.isEmpty then params0 else params0 ++ [(("desc"), JVal.str d)]
    | none => params0
  let params2 := match request.pos with
    | some p => params1 ++ [(("pos"), p)]
    | none => params1
  let params3 := match request.due with
    | some d => params2 ++ [(("due"), JVal.str d.isoformat)]
    | none => params2
  let params4 := match request.labels with
    | some ls => if ls.isEmpty then params3
        else params3 ++ [(("idLabels"), JVal.str (String.intercalate (",") ls))]
    | none => params3
  let params5 := match request.members with
    | some ms => if ms.isEmpty then params4
        else params4 ++ [(("idMembers"), JVal.str (String.intercalate (",") ms))]
    | none => params4
  make_request upstream ("POST") ("cards") credentials params5 none

def update_card (upstream : Upstream) (credentials : TrelloCredentials)
    (card_id : Option String) (request : UpdateCardRequest) :
    Except TrelloAPIError JVal × List UpstreamCall :=
  let params0 : List (String × JVal) := []
  let params1 := match request.name with
    | some n => params0 ++ [(("name"), JVal.str n)]
    | none => params0
  let params2 := match request.desc with
    | some d => params1 ++ [(("desc"), JVal.str d)]
    | none => params1
  let params3 := match request.closed with
    | some c => params2 ++ [(("closed"), JVal.bool c)]
    | none => params2
  let params4 := match request.list_id with
    | some l => params3 ++ [(("idList"), JVal.str l)]
    | none => params3
  let params5 := match request.pos with
    | some p => params4 ++ [(("pos"), p)]
    | none => params4
  let params6 := match request.due with
    | some d => params5 ++ [(("due"), JVal.str d.isoformat)]
    | none => params5
  make_request upstream ("PUT") (("cards/") ++ pyStrOpt card_id) credentials
    params6 none

def add_member_to_card (upstream : Upstream) (credentials : TrelloCredentials)
    (card_id member_id : Option String) :
    Except TrelloAPIError JVal × List UpstreamCall :=
  make_request upstream ("POST")
    (("cards/") ++ pyStrOpt card_id ++ ("/idMembers")) credentials
    [(("value"), match member_id with
      | some m => JVal.str m
      | none => JVal.null)] none

def search_cards (upstream : Upstream) (credentials : TrelloCredentials)
    (request : SearchRequest) :
    Except TrelloAPIError (List JVal) × List UpstreamCall :=
  let limitVal : ℤ := match request.limit with
    | some l => if l ≠ 0 then l else 50
    | none => 50
  let params0 : List (String × JVal) :=
    [(("query"), JVal.str request.query),
     (("modelTypes"), JVal.str ("cards")),
     (("cards_limit"), JVal.num limitVal)]
  let params1 := match request.board_ids with
    | some ids => if ids.isEmpty then params0
        else params0 ++ [(("idBoards"), JVal.str (String.intercalate (",") ids))]
    | none => params0
  let r := make_request upstream ("GET") ("search") credentials params1 none
  match r.1 with
  | Except.ok v => (Except.ok (asList (jgetD v ("cards") (JVal.arr []))), r.2)
  | Except.error e => (Except.error e, r.2)

end TrelloClient

/-! ## Tool dispatcher (`tools.py`, class `TrelloTools`)

A tool result models `{"content":[{"type":"text","text": ...}]}` with the
optional `"isError": True` flag (`is_error = false` models an absent flag).
Handlers that construct a request model may raise a validation error out of
the handler; that is modelled by `Except.error`, caught by `execute_tool`'s
outermost `except Exception` clause. -/

structure ToolResult where
  text : String
  is_error : Bool
deriving DecidableEq

namespace TrelloTools

def board_info_line (board : JVal) : String :=
  let s0 := ("• **") ++ pyShow (jgetD board ("name") (JVal.str ("Unnamed")))
      ++ ("** (`") ++ pyShow (jgetD board ("id") JVal.null) ++ ("`)\n")
  let s1 := s0 ++ ("  URL: ") ++ pyShow (jgetD board ("url") (JVal.str ("N/A"))) ++ ("\n")
  let d := jgetD board ("desc") JVal.null
  if pyTruthy d then
    let ds := pyShow d
    if 100 < ds.length then s1 ++ ("  Description: ") ++ ds.take 100 ++ ("...\n")
    else s1 ++ ("  Description: ") ++ ds ++ ("\n")
  else s1

def list_boards (upstream : Upstream) (credentials : TrelloCredentials) :
    ToolResult × List UpstreamCall :=
  let r := TrelloClient.list_boards upstream credentials
  match r.1 with
  | Except.ok boards =>
    if boards.isEmpty then (⟨("📋 No boards found"), false⟩, r.2)
    else
      let result_text := ("📋 **Found ") ++ toString boards.length
          ++ (" boards:**\n\n")
          ++ String.intercalate ("\n") (boards.map board_info_line)
      (⟨result_text, false⟩, r.2)
  | Except.error e =>
    (⟨("❌ Failed to list boards: ") ++ e.message, true⟩, r.2)

def get_board_text (board : JVal) : String :=
  let t0 := ("📋 **Board: ") ++ pyShow (jgetD board ("name") (JVal.str ("Unnamed")))
      ++ ("**\n\n")
  let t1 := t0 ++ ("**ID:** `") ++ pyShow (jgetD board ("id") JVal.null) ++ ("`\n")
  let t2 := t1 ++ ("**URL:** ") ++ pyShow (jgetD board ("url") (JVal.str ("N/A"))) ++ ("\n")
  let t3 := t2 ++ ("**Closed:** ")
      ++ (if pyTruthy (jgetD board ("closed") JVal.null) then ("Yes") else ("No")) ++ ("\n")
  let t4 :=
    if pyTruthy (jgetD board ("desc") JVal.null) then
      t3 ++ ("**Description:** ") ++ pyShow (jgetD board ("desc") JVal.null) ++ ("\n")
    else t3
  let lists := asList (jgetD board ("lists") (JVal.arr []))
  let t5 :=
    if lists.isEmpty then t4
    else t4 ++ ("\n**Lists (") ++ toString lists.length ++ ("):**\n")
      ++ String.join (lists.map (fun lst =>
          ("• ") ++ pyShow (jgetD lst ("name") (JVal.str ("Unnamed")))
          ++ (" (`") ++ pyShow (jgetD lst ("id") JVal.null) ++ ("`)\n")))
  let cards := asList (jgetD board ("cards") (JVal.arr []))
  let t6 :=
    if cards.isEmpty then t5
    else
      let shown := t5 ++ ("\n**Cards (") ++ toString cards.length ++ ("):**\n")
        ++ String.join ((cards.take 10).map (fun card =>
            ("• ") ++ pyShow (jgetD card ("name") (JVal.str ("Unnamed")))
            ++ (" (`") ++ pyShow (jgetD card ("id") JVal.null) ++ ("`)\n")))
      if 10 < cards.length then
        shown ++ ("... and ") ++ toString (cards.length - 10) ++ (" more cards\n")
      else shown
  let members := asList (jgetD board ("members") (JVal.arr []))
  if members.isEmpty then t6
  else t6 ++ ("\n**Members (") ++ toString members.length ++ ("):**\n")
    ++ String.join (members.map (fun member =>
        ("• ") ++ pyShow (jgetD member ("fullName")
            (jgetD member ("username") (JVal.str ("Unknown"))))
        ++ (" (`") ++ pyShow (jgetD member ("id") JVal.null) ++ ("`)\n")))

def get_board (upstream : Upstream) (credentials : TrelloCredentials)
    (args : Args) : ToolResult × List UpstreamCall :=
  let board_id := argStr args ("board_id")
  let r := TrelloClient.get_board upstream credentials board_id
  match r.1 with
  | Except.ok board => (⟨get_board_text board, false⟩, r.2)
  | Except.error e => (⟨("❌ Failed to get board: ") ++ e.message, true⟩, r.2)

def create_board_text (board : JVal) : String :=
  let t0 := ("✅ **Board created successfully!**\n\n")
  let t1 := t0 ++ ("**Name:** ") ++ pyShow (jgetD board ("name") JVal.null) ++ ("\n")
  let t2 := t1 ++ ("**ID:** `") ++ pyShow (jgetD board ("id") JVal.null) ++ ("`\n")
  let t3 := t2 ++ ("**URL:** ") ++ pyShow (jgetD board ("url") JVal.null) ++ ("\n")
  if pyTruthy (jgetD board ("desc") JVal.null) then
    t3 ++ ("**Description:** ") ++ pyShow (jgetD board ("desc") JVal.null) ++ ("\n")
  else t3

def create_board (upstream : Upstream) (credentials : TrelloCredentials)
    (args : Args) : Except String (ToolResult × List UpstreamCall) :=
  match CreateBoardRequest.make (argStr args ("name")) (argStr args ("desc"))
      (argStr args ("organization_id")) ((argBool args ("default_lists")).getD true)
      (argObj args ("prefs")) with
  | Except.error e => Except.error e
  | Except.ok request =>
    let r := TrelloClient.create_board upstream credentials request
    match r.1 with
    | Except.ok board => Except.ok (⟨create_board_text board, false⟩, r.2)
    | Except.error e =>
      Except.ok (⟨("❌ Failed to create board: ") ++ e.message, true⟩, r.2)

def update_board_text (board : JVal) : String :=
  ("✅ **Board updated successfully!**\n\n")
  ++ ("**Name:** ") ++ pyShow (jgetD board ("name") JVal.null) ++ ("\n")
  ++ ("**ID:** `") ++ pyShow (jgetD board ("id") JVal.null) ++ ("`\n")
  ++ ("**URL:** ") ++ pyShow (jgetD board ("url") JVal.null) ++ ("\n")
  ++ ("**Closed:** ")
  ++ (if pyTruthy (jgetD board ("closed") JVal.null) then ("Yes") else ("No")) ++ ("\n")

def update_board (upstream : Upstream) (credentials : TrelloCredentials)
    (args : Args) : Except String (ToolResult × List UpstreamCall) :=
  let board_id := argStr args ("board_id")
  match UpdateBoardRequest.make (argStr args ("name")) (argStr args ("desc"))
      (argBool args ("closed")) (argObj args ("prefs")) with
  | Except.error e => Except.error e
  | Except.ok request =>
    let r := TrelloClient.update_board upstream credentials board_id request
    match r.1 with
    | Except.ok board => Except.ok (⟨update_board_text board, false⟩, r.2)
    | Except.error e =>
      Except.ok (⟨("❌ Failed to update board: ") ++ e.message, true⟩, r.2)

def list_info_line (lst : JVal) : String :=
  ("• **") ++ pyShow (jgetD lst ("name") (JVal.str ("Unnamed")))
  ++ ("** (`") ++ pyShow (jgetD lst ("id") JVal.null) ++ ("`)\n")
  ++ ("  Position: ") ++ pyShow (jgetD lst ("pos") (JVal.str ("N/A"))) ++ ("\n")
  ++ ("  Closed: ")
  ++ (if pyTruthy (jgetD lst ("closed") JVal.null) then ("Yes") else ("No")) ++ ("\n")

def get_lists (upstream : Upstream) (credentials : TrelloCredentials)
    (args : Args) : ToolResult × List UpstreamCall :=
  let board_id := argStr args ("board_id")
  let r := TrelloClient.get_lists upstream credentials board_id
  match r.1 with
  | Except.ok lists =>
    if lists.isEmpty then
      (⟨("📝 No lists found on board `") ++ pyStrOpt board_id ++ ("`"), false⟩, r.2)
    else
      (⟨("📝 **Found ") ++ toString lists.length ++ (" lists:**\n\n")
        ++ String.intercalate ("\n") (lists.map list_info_line), false⟩, r.2)
  | Except.error e =>
    (⟨("❌ Failed to get lists: ") ++ e.message, true⟩, r.2)

def create_list_text (lst : JVal) : String :=
  ("✅ **List created successfully!**\n\n")
  ++ ("**Name:** ") ++ pyShow (jgetD lst ("name") JVal.null) ++ ("\n")
  ++ ("**ID:** `") ++ pyShow (jgetD lst ("id") JVal.null) ++ ("`\n")
  ++ ("**Board ID:** `") ++ pyShow (jgetD lst ("idBoard") JVal.null) ++ ("`\n")
  ++ ("**Position:** ") ++ pyShow (jgetD lst ("pos") (JVal.str ("N/A"))) ++ ("\n")

def create_list (upstream : Upstream) (credentials : TrelloCredentials)
    (args : Args) : Except String (ToolResult × List UpstreamCall) :=
  match CreateListRequest.make (argStr args ("name")) (argStr args ("board_id"))
      (argGet args ("pos")) with
  | Except.error e => Except.error e
  | Except.ok request =>
    let r := TrelloClient.create_list upstream credentials request
    match r.1 with
    | Except.ok lst => Except.ok (⟨create_list_text lst, false⟩, r.2)
    | Except.error e =>
      Except.ok (⟨("❌ Failed to create list: ") ++ e.message, true⟩, r.2)

def card_info_line (card : JVal) : String :=
  let s0 := ("• **") ++ pyShow (jgetD card ("name") (JVal.str ("Unnamed")))
      ++ ("** (`") ++ pyShow (jgetD card ("id") JVal.null) ++ ("`)\n")
  let s1 :=
    if pyTruthy (jgetD card ("desc") JVal.null) then
      let ds := pyShow (jgetD card ("desc") JVal.null)
      if 100 < ds.length then s0 ++ ("  Description: ") ++ ds.take 100 ++ ("...\n")
      else s0 ++ ("  Description: ") ++ ds ++ ("\n")
    else s0
  let s2 := s1 ++ ("  URL: ") ++ pyShow (jgetD card ("url") (JVal.str ("N/A"))) ++ ("\n")
  let s3 :=
    if pyTruthy (jgetD card ("due") JVal.null) then
      s2 ++ ("  Due: ") ++ pyShow (jgetD card ("due") JVal.null) ++ ("\n")
    else s2
  if pyTruthy (jgetD card ("labels") JVal.null) then
    s3 ++ ("  Labels: ")
    ++ String.intercalate (", ")
        ((asList (jgetD card ("labels") (JVal.arr []))).map (fun label =>
          pyShow (jgetD label ("name") (JVal.str ("Unnamed"))))) ++ ("\n")
  else s3

def get_cards (upstream : Upstream) (credentials : TrelloCredentials)
    (args : Args) : ToolResult × List UpstreamCall :=
  let board_id := argStr args ("board_id")
  let list_id := argStr args ("list_id")
  let r := TrelloClient.get_cards upstream credentials board_id list_id
  let source :=
    if truthyOptStr list_id then ("list `") ++ pyStrOpt list_id ++ ("`")
    else ("board `") ++ pyStrOpt board_id ++ ("`")
  match r.1 with
  | Except.ok cards =>
    if cards.isEmpty then
      (⟨("🃏 No cards found in ") ++ source, false⟩, r.2)
    else
      (⟨("🃏 **Found ") ++ toString cards.length ++ (" cards in ") ++ source
        ++ (":**\n\n")
        ++ String.intercalate ("\n") (cards.map card_info_line), false⟩, r.2)
  | Except.error e =>
    (⟨("❌ Failed to get cards: ") ++ e.message, true⟩, r.2)

/-- Outcome of the due-date pre-parsing in the card handlers:
parsed value, ISO-format rejection (`ValueError`), or a non-string value
reaching `.replace` (`AttributeError`, escaping the handler). -/
inductive DueParse where
  | ok (d : Option PyDateTime)
  | badFormat
  | typeError

/-- `_create_card` due handling: `if arguments.get("due"):` then parse. -/
def create_card_due (parseIso : String → Option PyDateTime) (args : Args) :
    DueParse :=
  match argGet args ("due") with
  | some v =>
    if pyTruthy v then
      match v with
      | JVal.str s =>
        match parseIso (s.replace ("Z") ("+00:00")) with
        | some d => DueParse.ok (some d)
        | none => DueParse.badFormat
      | _ => DueParse.typeError
    else DueParse.ok none
  | none => DueParse.ok none

/-- `_update_card` due handling: keyed on the presence of `"due"` in the
argument map; an explicit `None` or `""` value clears `due_date` to `None`
("remove due date"), any other string is parsed. -/
def update_card_due (parseIso : String → Option PyDateTime) (args : Args) :
    DueParse :=
  match argGet args ("due") with
  | none => DueParse.ok none
  | some JVal.null => DueParse.ok none
  | some (JVal.str s) =>
    if s.isEmpty then DueParse.ok none
    else
      match parseIso (s.replace ("Z") ("+00:00")) with
      | some d => DueParse.ok (some d)
      | none => DueParse.badFormat
  | some _ => DueParse.typeError

def create_card_text (card : JVal) : String :=
  let t0 := ("✅ **Card created successfully!**\n\n")
  let t1 := t0 ++ ("**Name:** ") ++ pyShow (jgetD card ("name") JVal.null) ++ ("\n")
  let t2 := t1 ++ ("**ID:** `") ++ pyShow (jgetD card ("id") JVal.null) ++ ("`\n")
  let t3 := t2 ++ ("**List ID:** `") ++ pyShow (jgetD card ("idList") JVal.null) ++ ("`\n")
  let t4 := t3 ++ ("**URL:** ") ++ pyShow (jgetD card ("url") JVal.null) ++ ("\n")
  let t5 :=
    if pyTruthy (jgetD card ("desc") JVal.null) then
      t4 ++ ("**Description:** ") ++ pyShow (jgetD card ("desc") JVal.null) ++ ("\n")
    else t4
  if pyTruthy (jgetD card ("due") JVal.null) then
    t5 ++ ("**Due:** ") ++ pyShow (jgetD card ("due") JVal.null) ++ ("\n")
  else t5

def create_card (upstream : Upstream) (parseIso : String → Option PyDateTime)
    (credentials : TrelloCredentials) (args : Args) :
    Except String (ToolResult × List UpstreamCall) :=
  match create_card_due parseIso args with
  | DueParse.typeError => Except.error ("AttributeError")
  | DueParse.badFormat =>
    Except.ok (⟨("❌ Invalid due date format. Use ISO format (e.g., 2024-01-01T12:00:00Z)"),
      true⟩, [])
  | DueParse.ok due_date =>
    match CreateCardRequest.make (argStr args ("name")) (argStr args ("list_id"))
        (argStr args ("desc")) (argGet args ("pos")) due_date
        (argStrList args ("labels")) (argStrList args ("members")) with
    | Except.error e => Except.error e
    | Except.ok request =>
      let r := TrelloClient.create_card upstream credentials request
      match r.1 with
      | Except.ok card => Except.ok (⟨create_card_text card, false⟩, r.2)
      | Except.error e =>
        Except.ok (⟨("❌ Failed to create card: ") ++ e.message, true⟩, r.2)

def update_card_text (card : JVal) : String :=
  ("✅ **Card updated successfully!**\n\n")
  ++ ("**Name:** ") ++ pyShow (jgetD card ("name") JVal.null) ++ ("\n")
  ++ ("**ID:** `") ++ pyShow (jgetD card ("id") JVal.null) ++ ("`\n")
  ++ ("**List ID:** `") ++ pyShow (jgetD card ("idList") JVal.null) ++ ("`\n")
  ++ ("**URL:** ") ++ pyShow (jgetD card ("url") JVal.null) ++ ("\n")
  ++ ("**Closed:** ")
  ++ (if pyTruthy (jgetD card ("closed") JVal.null) then ("Yes") else ("No")) ++ ("\n")

def update_card (upstream : Upstream) (parseIso : String → Option PyDateTime)
    (credentials : TrelloCredentials) (args : Args) :
    Except String (ToolResult × List UpstreamCall) :=
  let card_id := argStr args ("card_id")
  match update_card_due parseIso args with
  | DueParse.typeError => Except.error ("AttributeError")
  | DueParse.badFormat =>
    Except.ok (⟨("❌ Invalid due date format. Use ISO format (e.g., 2024-01-01T12:00:00Z) or null to remove"),
      true⟩, [])
  | DueParse.ok due_date =>
    match UpdateCardRequest.make (argStr args ("name")) (argStr args ("desc"))
        (argBool args ("closed")) (argStr args ("list_id"))
        (argGet args ("pos")) due_date with
    | Except.error e => Except.error e
    | Except.ok request =>
      let r := TrelloClient.update_card upstream credentials card_id request
      match r.1 with
      | Except.ok card => Except.ok (⟨update_card_text card, false⟩, r.2)
      | Except.error e =>
        Except.ok (⟨("❌ Failed to update card: ") ++ e.message, true⟩, r.2)

def add_member_to_card (upstream : Upstream) (credentials : TrelloCredentials)
    (args : Args) : ToolResult × List UpstreamCall :=
  let card_id := argStr args ("card_id")
  let member_id := argStr args ("member_id")
  let r := TrelloClient.add_member_to_card upstream credentials card_id member_id
  match r.1 with
  | Except.ok _ =>
    (⟨("✅ **Member added to card successfully!**\n\n")
      ++ ("**Card ID:** `") ++ pyStrOpt card_id ++ ("`\n")
      ++ ("**Member ID:** `") ++ pyStrOpt member_id ++ ("`\n"), false⟩, r.2)
  | Except.error e =>
    (⟨("❌ Failed to add member to card: ") ++ e.message, true⟩, r.2)

def search_card_line (card : JVal) : String :=
  let s0 := ("• **") ++ pyShow (jgetD card ("name") (JVal.str ("Unnamed")))
      ++ ("** (`") ++ pyShow (jgetD card ("id") JVal.null) ++ ("`)\n")
  let s1 :=
    if pyTruthy (jgetD card ("desc") JVal.null) then
      let ds := pyShow (jgetD card ("desc") JVal.null)
      if 100 < ds.length then s0 ++ ("  Description: ") ++ ds.take 100 ++ ("...\n")
      else s0 ++ ("  Description: ") ++ ds ++ ("\n")
    else s0
  let s2 := s1 ++ ("  URL: ") ++ pyShow (jgetD card ("url") (JVal.str ("N/A"))) ++ ("\n")
  if pyTruthy (jgetD card ("due") JVal.null) then
    s2 ++ ("  Due: ") ++ pyShow (jgetD card ("due") JVal.null) ++ ("\n")
  else s2

def search_cards (upstream : Upstream) (credentials : TrelloCredentials)
    (args : Args) : Except String (ToolResult × List UpstreamCall) :=
  let limitArg : Option ℤ :=
    match argGet args ("limit") with
    | none => some 50
    | some (JVal.num n) => some n
    | some _ => none
  match SearchRequest.make (argStr args ("query")) (argStrList args ("board_ids"))
      limitArg with
  | Except.error e => Except.error e
  | Except.ok request =>
    let r := TrelloClient.search_cards upstream credentials request
    match r.1 with
    | Except.ok cards =>
      if cards.isEmpty then
        Except.ok (⟨("🔍 No cards found for query: \x27") ++ request.query ++ ("\x27"),
          false⟩, r.2)
      else
        Except.ok (⟨("🔍 **Found ") ++ toString cards.length ++ (" cards for \x27")
          ++ request.query ++ ("\x27:**\n\n")
          ++ String.intercalate ("\n") (cards.map search_card_line), false⟩, r.2)
    | Except.error e =>
      Except.ok (⟨("❌ Failed to search cards: ") ++ e.message, true⟩, r.2)

/-- One catalog entry of `get_tools()`: the description and the schema's
`required` list.  The `properties` maps of the input schemas are not
reproduced in the model; no verified property depends on them. -/
structure ToolDescriptor where
  description : String
  required : List String
deriving DecidableEq

/-- The static tool catalog of `get_tools()` (names, descriptions and
required-parameter lists, in source order). -/
def get_tools : List (String × ToolDescriptor) :=
  [(("list_boards"),
    ⟨("List all boards for the authenticated user (credentials optional - will prompt if needed)"), []⟩),
   (("get_board"),
    ⟨("Get detailed information about a specific board"), [("board_id")]⟩),
   (("create_board"), ⟨("Create a new board"), [("name")]⟩),
   (("update_board"), ⟨("Update an existing board"), [("board_id")]⟩),
   (("get_lists"), ⟨("Get all lists on a board"), [("board_id")]⟩),
   (("create_list"),
    ⟨("Create a new list on a board"), [("name"), ("board_id")]⟩),
   (("get_cards"), ⟨("Get cards from a board or list"), []⟩),
   (("create_card"), ⟨("Create a new card"), [("name"), ("list_id")]⟩),
   (("update_card"), ⟨("Update an existing card"), [("card_id")]⟩),
   (("add_member_to_card"),
    ⟨("Add a member to a card"), [("card_id"), ("member_id")]⟩),
   (("search_cards"),
    ⟨("Search for cards across boards"), [("query")]⟩)]

/-- `execute_tool`: resolve credentials (explicit pair, else cache/prompt),
construct `TrelloCredentials`, validate them upstream, then dispatch on the
tool name; unknown names produce the unknown-tool error payload.  Any
escaping exception is caught and mapped to the generic failure payload.
Returns the result payload, the credential-manager state after the call,
and the trace of issued upstream calls (each of which passed through the
rate limiter). -/
def execute_tool (upstream : Upstream) (parseIso : String → Option PyDateTime)
    (promptPair : String × String) (now : ℤ) (cm : CredentialManager)
    (tool_name : String) (arguments : JVal) :
    ToolResult × CredentialManager × List UpstreamCall :=
  match arguments with
  | JVal.obj args =>
    let api_key := argStr args ("api_key")
    let token := argStr args ("token")
    let resolved : (String × String) × CredentialManager :=
      match api_key, token with
      | some k, some t =>
        if !k.isEmpty && !t.isEmpty then ((k, t), cm)
        else CredentialManager.get_or_prompt_credentials cm now api_key token promptPair
      | _, _ =>
        CredentialManager.get_or_prompt_credentials cm now api_key token promptPair
    let cm' := resolved.2
    match TrelloCredentials.make resolved.1.1 resolved.1.2 with
    | Except.error e => (⟨("❌ Tool execution failed: ") ++ e, true⟩, cm', [])
    | Except.ok credentials =>
      let v := TrelloClient.validate_credentials upstream credentials
      match v.1 with
      | TrelloClient.ValidationOutcome.invalid err =>
        (⟨("❌ Invalid credentials: ") ++ err, true⟩, cm', v.2)
      | TrelloClient.ValidationOutcome.valid _ =>
        let run : Except String (ToolResult × List UpstreamCall) :=
          if tool_name == ("list_boards") then
            Except.ok (list_boards upstream credentials)
          else if tool_name == ("get_board") then
            Except.ok (get_board upstream credentials args)
          else if tool_name == ("create_board") then
            create_board upstream credentials args
          else if tool_name == ("update_board") then
            update_board upstream credentials args
          else if tool_name == ("get_lists") then
            Except.ok (get_lists upstream credentials args)
          else if tool_name == ("create_list") then
            create_list upstream credentials args
          else if tool_name == ("get_cards") then
            Except.ok (get_cards upstream credentials args)
          else if tool_name == ("create_card") then
            create_card upstream parseIso credentials args
          else if tool_name == ("update_card") then
            update_card upstream parseIso credentials args
          else if tool_name == ("add_member_to_card") then
            Except.ok (add_member_to_card upstream credentials args)
          else if tool_name == ("search_cards") then
            search_cards upstream credentials args
          else
            Except.ok (⟨("❌ Unknown tool: ") ++ tool_name, true⟩, [])
        match run with
        | Except.ok res => (res.1, cm', v.2 ++ res.2)
        | Except.error e =>
          (⟨("❌ Tool execution failed: ") ++ e, true⟩, cm', v.2)
  | _ => (⟨("❌ Tool execution failed: ") ++ ("AttributeError"), true⟩, cm, [])

end TrelloTools

/-! ## Protocol handler (`mcp_server.py`, class `TrelloMCPServer`)

The inbound envelope is `request.get("method") / .get("params", {}) /
.get("id")`; the response dict always carries `jsonrpc: "2.0"`, the
correlation id, and either a `result` or an `error` object.  `self.tools`
is `None` until the lifecycle `TrelloMCPServer.initialize()` ran; once
present, its mutable state is the credential manager.  The five result
shapes the handlers build are modelled by `ResultPayload`. -/

structure MCPRequest where
  method : Option String
  params : Option JVal
  id : Option JVal

inductive ResultPayload where
  | initRes (protocolVersion : String) (capabilities : JVal)
      (serverName serverVersion : String)
  | toolsList (tools : List (String × TrelloTools.ToolDescriptor))
  | toolCall (r : ToolResult)
  | resourcesList
  | promptsList

structure ErrorObj where
  code : ℤ
  message : String

structure MCPResponse where
  id : Option JVal
  result : Option ResultPayload
  error : Option ErrorObj

structure TrelloMCPServer where
  tools : Option CredentialManager
  capabilities : JVal

namespace TrelloMCPServer

/-- `_create_error_response`. -/
def create_error_response (request_id : Option JVal) (code : ℤ)
    (message : String) : MCPResponse :=
  ⟨request_id, none, some ⟨code, message⟩⟩

/-- `_handle_initialize`: reject a requested version outside
`supported_versions = ["2024-11-05"]` with `-32602`; otherwise answer with
the protocol version, the server capabilities and the server info.  A
non-dict `params` raises inside the handler and is caught by its own
`except` clause as `-32603`. -/
def handle_init_request (server : TrelloMCPServer) (request_id : Option JVal)
    (params : JVal) : MCPResponse :=
  match params with
  | JVal.obj ps =>
    let pv := argGet ps ("protocolVersion")
    let supported := match pv with
      | some (JVal.str s) => s == ("2024-11-05")
      | _ => false
    if supported then
      ⟨request_id,
       some (ResultPayload.initRes (pyShow (pv.getD JVal.null))
         server.capabilities ("trello-mcp") ("1.0.0")), none⟩
    else
      create_error_response request_id (-32602)
        (("Unsupported protocol version: ") ++ pyShow (pv.getD JVal.null))
  | _ => create_error_response request_id (-32603) ("AttributeError")

/-- `_handle_tools_list`. -/
def handle_tools_list (server : TrelloMCPServer) (request_id : Option JVal) :
    MCPResponse :=
  match server.tools with
  | none => ⟨request_id, some (ResultPayload.toolsList []), none⟩
  | some _ => ⟨request_id, some (ResultPayload.toolsList TrelloTools.get_tools), none⟩

/-- `_handle_tool_call`: require a truthy tool name and an initialised tool
registry, then delegate to `execute_tool` and wrap its payload as a
`result` (envelope-level success even when the operation failed). -/
def handle_tool_call (upstream : Upstream) (parseIso : String → Option PyDateTime)
    (promptPair : String × String) (now : ℤ) (server : TrelloMCPServer)
    (request_id : Option JVal) (params : JVal) :
    MCPResponse × TrelloMCPServer :=
  match params with
  | JVal.obj ps =>
    let tool_name := argGet ps ("name")
    if !(pyTruthy (tool_name.getD JVal.null)) then
      (create_error_response request_id (-32602) ("Tool name is required"), server)
    else
      match server.tools with
      | none =>
        (create_error_response request_id (-32603) ("Tools not initialized"), server)
      | some cm =>
        let arguments := (argGet ps ("arguments")).getD (JVal.obj [])
        let r := TrelloTools.execute_tool upstream parseIso promptPair now cm
            (pyShow (tool_name.getD JVal.null)) arguments
        (⟨request_id, some (ResultPayload.toolCall r.1), none⟩,
         { server with tools := some r.2.1 })
  | _ => (create_error_response request_id (-32603) ("AttributeError"), server)

/-- `handle_request`: route on the method string; unknown methods answer
`-32601`; every branch echoes the request id. -/
def handle_request (upstream : Upstream) (parseIso : String → Option PyDateTime)
    (promptPair : String × String) (now : ℤ) (server : TrelloMCPServer)
    (request : MCPRequest) : MCPResponse × TrelloMCPServer :=
  let params := request.params.getD (JVal.obj [])
  if request.method == some ("initialize") then
    (handle_init_request server request.id params, server)
  else if request.method == some ("tools/list") then
    (handle_tools_list server request.id, server)
  else if request.method == some ("tools/call") then
    handle_tool_call upstream parseIso promptPair now server request.id params
  else if request.method == some ("resources/list") then
    (⟨request.id, some ResultPayload.resourcesList, none⟩, server)
  else if request.method == some ("prompts/list") then
    (⟨request.id, some ResultPayload.promptsList, none⟩, server)
  else
    (create_error_response request.id (-32601)
      (("Method not found: ") ++ pyStrOpt request.method), server)

end TrelloMCPServer

/-- C8: `initialize` fails exactly when the requested `protocolVersion` is
not the single accepted version string `"2024-11-05"`; on failure the
envelope-level error has code `-32602` and a message mentioning
"Unsupported protocol version", and on success the result carries the
server capabilities and the supported protocol version. -/
theorem mcp_init_version_check (server : TrelloMCPServer)
    (request_id : Option JVal) (ps : List (String × JVal)) :
    ((TrelloMCPServer.handle_init_request server request_id (JVal.obj ps)).error.isSome
      ↔ argGet ps ("protocolVersion") ≠ some (JVal.str ("2024-11-05"))) ∧
    (∀ e, (TrelloMCPServer.handle_init_request server request_id (JVal.obj ps)).error
        = some e →
      e.code = -32602 ∧
      ∃ rest, e.message = ("Unsupported protocol version: ") ++ rest) ∧
    (argGet ps ("protocolVersion") = some (JVal.str ("2024-11-05")) →
      TrelloMCPServer.handle_init_request server request_id (JVal.obj ps)
        = ⟨request_id,
           some (ResultPayload.initRes ("2024-11-05") server.capabilities
             ("trello-mcp") ("1.0.0")), none⟩) := by
  refine ⟨?_, ?_, ?_⟩
  · unfold TrelloMCPServer.handle_init_request TrelloMCPServer.create_error_response
    cases hpv : argGet ps ("protocolVersion") with
    | none => simp [hpv]
    | some v =>
      cases v with
      | str s =>
        by_cases hs : s = ("2024-11-05")
        · subst hs
          simp [hpv]
        · simp [hpv, hs]
      | null => simp [hpv]
      | bool b => simp [hpv]
      | num n => simp [hpv]
      | arr xs => simp [hpv]
      | obj fs => simp [hpv]
  · intro e
    unfold TrelloMCPServer.handle_init_request TrelloMCPServer.create_error_response
    cases hpv : argGet ps ("protocolVersion") with
    | none =>
      intro he
      simp [hpv] at he
      rw [← he]
      exact ⟨rfl, ("None"), rfl⟩
    | some v =>
      cases v with
      | str s =>
        by_cases hs : s = ("2024-11-05")
        · subst hs
          intro he
          simp [hpv] at he
        · intro he
          simp [hpv, hs] at he
          rw [← he]
          exact ⟨rfl, s, rfl⟩
      | null =>
        intro he
        simp [hpv] at he
        rw [← he]
        exact ⟨rfl, ("None"), rfl⟩
      | bool b =>
        intro he
        simp [hpv] at he
        rw [← he]
        exact ⟨rfl, pyShow (JVal.bool b), rfl⟩
      | num n =>
        intro he
        simp [hpv] at he
        rw [← he]
        exact ⟨rfl, pyShow (JVal.num n), rfl⟩
      | arr xs =>
        intro he
        simp [hpv] at he
        rw [← he]
        exact ⟨rfl, pyShow (JVal.arr xs), rfl⟩
      | obj fs =>
        intro he
        simp [hpv] at he
        rw [← he]
        exact ⟨rfl, pyShow (JVal.obj fs), rfl⟩
  · intro h
    unfold TrelloMCPServer.handle_init_request
    simp [h, pyShow]

theorem mcp_init_version_check_witness :
    ((TrelloMCPServer.handle_init_request ⟨none, JVal.obj []⟩ (some (JVal.str ("1")))
        (JVal.obj [(("protocolVersion"), JVal.str ("9999-01-01"))])).error.isSome
      ↔ argGet [(("protocolVersion"), JVal.str ("9999-01-01"))] ("protocolVersion")
          ≠ some (JVal.str ("2024-11-05"))) ∧
    (TrelloMCPServer.handle_init_request ⟨none, JVal.obj []⟩ (some (JVal.str ("1")))
        (JVal.obj [(("protocolVersion"), JVal.str ("2024-11-05"))])
      = ⟨some (JVal.str ("1")),
         some (ResultPayload.initRes ("2024-11-05") (JVal.obj []) ("trello-mcp")
           ("1.0.0")), none⟩) :=
  ⟨(mcp_init_version_check ⟨none, JVal.obj []⟩ (some (JVal.str ("1")))
      [(("protocolVersion"), JVal.str ("9999-01-01"))]).1,
   (mcp_init_version_check ⟨none, JVal.obj []⟩ (some (JVal.str ("1")))
      [(("protocolVersion"), JVal.str ("2024-11-05"))]).2.2 rfl⟩

theorem handle_init_request_envelope (server : TrelloMCPServer)
    (request_id : Option JVal) (params : JVal) :
    (TrelloMCPServer.handle_init_request server request_id params).id = request_id ∧
    ((TrelloMCPServer.handle_init_request server request_id params).result.isSome
      = !(TrelloMCPServer.handle_init_request server request_id params).error.isSome) := by
  unfold TrelloMCPServer.handle_init_request TrelloMCPServer.create_error_response
  cases params with
  | obj ps => refine ⟨?_, ?_⟩ <;> (dsimp only; split <;> simp)
  | null => simp
  | bool b => simp
  | num n => simp
  | str s => simp
  | arr xs => simp

theorem handle_tools_list_envelope (server : TrelloMCPServer)
    (request_id : Option JVal) :
    (TrelloMCPServer.handle_tools_list server request_id).id = request_id ∧
    ((TrelloMCPServer.handle_tools_list server request_id).result.isSome
      = !(TrelloMCPServer.handle_tools_list server request_id).error.isSome) := by
  unfold TrelloMCPServer.handle_tools_list
  cases server.tools <;> simp

theorem handle_tool_call_envelope (upstream : Upstream)
    (parseIso : String → Option PyDateTime) (promptPair : String × String)
    (now : ℤ) (server : TrelloMCPServer) (request_id : Option JVal)
    (params : JVal) :
    ((TrelloMCPServer.handle_tool_call upstream parseIso promptPair now server
        request_id params).1.id = request_id) ∧
    ((TrelloMCPServer.handle_tool_call upstream parseIso promptPair now server
        request_id params).1.result.isSome
      = !(TrelloMCPServer.handle_tool_call upstream parseIso promptPair now server
        request_id params).1.error.isSome) := by
  unfold TrelloMCPServer.handle_tool_call TrelloMCPServer.create_error_response
  cases params with
  | obj ps =>
    refine ⟨?_, ?_⟩ <;>
      (dsimp only
       split
       · simp
       · cases htools : server.tools <;> simp [htools])
  | null => simp
  | bool b => simp
  | num n => simp
  | str s => simp
  | arr xs => simp

/-- C9: for every inbound envelope — any method (known or unknown), any
params shape, any id — the protocol handler echoes the request's
correlation id unchanged and the response carries exactly one of `result`
or `error`. -/
theorem mcp_envelope_invariant (upstream : Upstream)
    (parseIso : String → Option PyDateTime) (promptPair : String × String)
    (now : ℤ) (server : TrelloMCPServer) (request : MCPRequest) :
    ((TrelloMCPServer.handle_request upstream parseIso promptPair now server
        request).1.id = request.id) ∧
    ((TrelloMCPServer.handle_request upstream parseIso promptPair now server
        request).1.result.isSome
      = !(TrelloMCPServer.handle_request upstream parseIso promptPair now server
        request).1.error.isSome) := by
  unfold TrelloMCPServer.handle_request TrelloMCPServer.create_error_response
  dsimp only
  split
  · exact handle_init_request_envelope server request.id
      (request.params.getD (JVal.obj []))
  · split
    · exact handle_tools_list_envelope server request.id
    · split
      · exact handle_tool_call_envelope upstream parseIso promptPair now server
          request.id (request.params.getD (JVal.obj []))
      · split
        · simp
        · split
          · simp
          · simp

/-- Remove every entry under a key from an argument map (for comparing a
call against one that omitted the key entirely). -/
def removeKey (args : Args) (k : String) : Args :=
  args.filter (fun p => !(p.1 == k))

theorem argGet_removeKey_self (args : Args) (k : String) :
    argGet (removeKey args k) k = none := by
  unfold argGet removeKey
  rw [List.find?_eq_none.mpr]
  · rfl
  · intro x hx
    have hx2 := (List.mem_filter.mp hx).2
    simpa using hx2

theorem argGet_removeKey_ne (args : Args) (k k' : String) (h : (k' == k) = false) :
    argGet (removeKey args k) k' = argGet args k' := by
  have hne : k' ≠ k := by simpa using h
  unfold argGet removeKey
  induction args with
  | nil => rfl
  | cons a l ih =>
    rw [List.filter_cons]
    by_cases ha : (a.1 == k) = true
    · have hak : a.1 = k := by simpa using ha
      have h2 : (a.1 == k') = false := by
        rw [hak]
        simp only [beq_eq_false_iff_ne, ne_eq]
        exact fun hx => hne hx.symm
      simp only [ha, Bool.not_true, Bool.false_eq_true, if_false]
      conv_rhs => rw [List.find?_cons_of_neg _ (by simp [h2])]
      exact ih
    · rw [Bool.not_eq_true] at ha
      simp only [ha, Bool.not_false, if_true]
      cases hcmp : (a.1 == k')
      · rw [List.find?_cons_of_neg _ (by simp [hcmp]),
          List.find?_cons_of_neg _ (by simp [hcmp])]
        exact ih
      · rw [List.find?_cons_of_pos _ (by simp [hcmp]),
          List.find?_cons_of_pos _ (by simp [hcmp])]

theorem argStr_removeKey_ne (args : Args) (k k' : String) (h : (k' == k) = false) :
    argStr (removeKey args k) k' = argStr args k' := by
  unfold argStr
  rw [argGet_removeKey_ne args k k' h]

theorem argBool_removeKey_ne (args : Args) (k k' : String) (h : (k' == k) = false) :
    argBool (removeKey args k) k' = argBool args k' := by
  unfold argBool
  rw [argGet_removeKey_ne args k k' h]

theorem mem_dictSet_key (ps : List (String × JVal)) (k : String) (v : JVal)
    (p : String × JVal) (hp : p ∈ dictSet ps k v) : p.1 = k ∨ p ∈ ps := by
  unfold dictSet at hp
  split at hp
  · rcases List.mem_map.mp hp with ⟨q, hq, hpq⟩
    by_cases h : (q.1 == k) = true
    · left
      rw [← hpq]
      simp [h]
    · right
      rw [Bool.not_eq_true] at h
      rw [← hpq]
      simpa [h] using hq
  · rcases List.mem_append.mp hp with h | h
    · exact Or.inr h
    · simp only [List.mem_singleton] at h
      subst h
      exact Or.inl rfl

theorem no_due_append_pair (l : Args) (k : String) (v : JVal)
    (hl : ∀ p ∈ l, p.1 ≠ ("due")) (hk : k ≠ ("due")) :
    ∀ p ∈ l ++ [(k, v)], p.1 ≠ ("due") := by
  intro p hp
  rcases List.mem_append.mp hp with h | h
  · exact hl p h
  · simp only [List.mem_singleton] at h
    subst h
    exact hk

theorem no_due_match_opt {X : Type} (o : Option X) (l : Args) (k : String)
    (f : X → JVal) (hl : ∀ p ∈ l, p.1 ≠ ("due")) (hk : k ≠ ("due")) :
    ∀ p ∈ ((match o with
      | some x => l ++ [(k, f x)]
      | none => l) : Args), p.1 ≠ ("due") := by
  cases o with
  | none => exact hl
  | some x => exact no_due_append_pair l k (f x) hl hk

theorem no_due_match_id (o : Option JVal) (l : Args) (k : String)
    (hl : ∀ p ∈ l, p.1 ≠ ("due")) (hk : k ≠ ("due")) :
    ∀ p ∈ ((match o with
      | some x => l ++ [(k, x)]
      | none => l) : Args), p.1 ≠ ("due") := by
  cases o with
  | none => exact hl
  | some x => exact no_due_append_pair l k x hl hk

/-- In `TrelloClient.update_card` with `request.due = None`, no parameter
of the issued `PUT cards/...` call is keyed `"due"`. -/
theorem update_card_client_no_due_param (upstream : Upstream)
    (credentials : TrelloCredentials) (card_id : Option String)
    (request : UpdateCardRequest) (hdue : request.due = none) :
    ∀ call ∈ (TrelloClient.update_card upstream credentials card_id request).2,
      ∀ p ∈ call.params, p.1 ≠ ("due") := by
  rcases request with ⟨name, desc, closed, list_id, pos, due⟩
  cases due with
  | some dd => simp at hdue
  | none =>
    intro call hcall
    unfold TrelloClient.update_card TrelloClient.make_request at hcall
    simp only [List.mem_singleton] at hcall
    subst hcall
    intro p hp
    simp only at hp
    rcases mem_dictSet_key _ _ _ _ hp with h | hp2
    · rw [h]
      decide
    rcases mem_dictSet_key _ _ _ _ hp2 with h | hp3
    · rw [h]
      decide
    intro heq
    have hmem := List.mem_map_of_mem Prod.fst hp3
    rw [heq] at hmem
    rcases name with _ | n <;> rcases desc with _ | d <;>
      rcases closed with _ | cl <;> rcases list_id with _ | li <;>
      rcases pos with _ | po <;> simp at hmem

theorem update_card_due_null (parseIso : String → Option PyDateTime)
    (args : Args)
    (hdue : argGet args ("due") = some JVal.null ∨
      argGet args ("due") = some (JVal.str (""))) :
    TrelloTools.update_card_due parseIso args = TrelloTools.DueParse.ok none := by
  unfold TrelloTools.update_card_due
  rcases hdue with h | h <;> rw [h] <;> rfl

theorem UpdateCardRequest_make_due (name desc : Option String)
    (closed : Option Bool) (list_id : Option String) (pos : Option JVal)
    (due : Option PyDateTime) (r : UpdateCardRequest)
    (h : UpdateCardRequest.make name desc closed list_id pos due = Except.ok r) :
    r.due = due := by
  cases name with
  | none =>
    simp only [UpdateCardRequest.make, Except.ok.injEq] at h
    rw [← h]
  | some n =>
    simp only [UpdateCardRequest.make] at h
    split at h
    · simp at h
    · split at h
      · simp at h
      · simp only [Except.ok.injEq] at h
        rw [← h]

/-- C10: an `update_card` call whose argument map carries `"due"` with a
`null` (or empty-string) value sends an upstream parameter set with no
`"due"` key at all — the dispatch result is identical to that of a call
omitting `"due"` entirely, so the upstream due field is not cleared. -/
theorem update_card_null_due_omits_due (upstream : Upstream)
    (parseIso : String → Option PyDateTime)
    (credentials : TrelloCredentials) (args : Args)
    (hdue : argGet args ("due") = some JVal.null ∨
      argGet args ("due") = some (JVal.str (""))) :
    TrelloTools.update_card upstream parseIso credentials args
      = TrelloTools.update_card upstream parseIso credentials
          (removeKey args ("due")) ∧
    (∀ res calls, TrelloTools.update_card upstream parseIso credentials args
        = Except.ok (res, calls) →
      ∀ call ∈ calls, ∀ p ∈ call.params, p.1 ≠ ("due")) := by
  have hdueL : TrelloTools.update_card_due parseIso args
      = TrelloTools.DueParse.ok none :=
    update_card_due_null parseIso args hdue
  have hdueR : TrelloTools.update_card_due parseIso (removeKey args ("due"))
      = TrelloTools.DueParse.ok none := by
    unfold TrelloTools.update_card_due
    rw [argGet_removeKey_self]
  constructor
  · unfold TrelloTools.update_card
    rw [hdueL, hdueR,
      argStr_removeKey_ne args ("due") ("card_id") (by decide),
      argStr_removeKey_ne args ("due") ("name") (by decide),
      argStr_removeKey_ne args ("due") ("desc") (by decide),
      argBool_removeKey_ne args ("due") ("closed") (by decide),
      argStr_removeKey_ne args ("due") ("list_id") (by decide),
      argGet_removeKey_ne args ("due") ("pos") (by decide)]
  · intro res calls h call hcall
    unfold TrelloTools.update_card at h
    simp only [hdueL] at h
    cases hmk : UpdateCardRequest.make (argStr args ("name"))
        (argStr args ("desc")) (argBool args ("closed"))
        (argStr args ("list_id")) (argGet args ("pos")) none with
    | error e =>
      simp only [hmk] at h
      simp at h
    | ok request =>
      simp only [hmk] at h
      have hrd : request.due = none :=
        UpdateCardRequest_make_due _ _ _ _ _ _ _ hmk
      cases hcl : (TrelloClient.update_card upstream credentials
          (argStr args ("card_id")) request).1 with
      | ok card =>
        simp only [hcl, Except.ok.injEq, Prod.mk.injEq] at h
        obtain ⟨h1, h2⟩ := h
        subst h2
        exact update_card_client_no_due_param upstream credentials
          (argStr args ("card_id")) request hrd call hcall
      | error e =>
        simp only [hcl, Except.ok.injEq, Prod.mk.injEq] at h
        obtain ⟨h1, h2⟩ := h
        subst h2
        exact update_card_client_no_due_param upstream credentials
          (argStr args ("card_id")) request hrd call hcall

theorem update_card_null_due_omits_due_witness :
    TrelloTools.update_card (fun _ => UpstreamAnswer.okJson JVal.null)
        (fun _ => none) ⟨("K"), ("T")⟩
        [(("card_id"), JVal.str ("c1")), (("due"), JVal.null)]
      = TrelloTools.update_card (fun _ => UpstreamAnswer.okJson JVal.null)
          (fun _ => none) ⟨("K"), ("T")⟩
          (removeKey [(("card_id"), JVal.str ("c1")), (("due"), JVal.null)]
            ("due")) ∧
    (∀ res calls,
      TrelloTools.update_card (fun _ => UpstreamAnswer.okJson JVal.null)
          (fun _ => none) ⟨("K"), ("T")⟩
          [(("card_id"), JVal.str ("c1")), (("due"), JVal.null)]
        = Except.ok (res, calls) →
      ∀ call ∈ calls, ∀ p ∈ call.params, p.1 ≠ ("due")) :=
  update_card_null_due_omits_due (fun _ => UpstreamAnswer.okJson JVal.null)
    (fun _ => none) ⟨("K"), ("T")⟩
    [(("card_id"), JVal.str ("c1")), (("due"), JVal.null)] (Or.inl rfl)

/-- C3 is refuted on the code: after a 401 from the validate-credentials
check, the dispatch payload carries the "Invalid credentials" message, but
the credential cache is NOT cleared — the cached pair and its timestamp
survive the dispatch unchanged (`clear_credentials` is never called on this
path). -/
theorem dispatch_401_cache_not_cleared_counterexample :
    (TrelloTools.execute_tool (fun _ => UpstreamAnswer.httpStatus 401 ("no"))
        (fun _ => none) (("P"), ("Q")) 100
        ⟨480, some ⟨("CACHEDKEY"), ("CACHEDTOKEN"), none, none⟩, some 60⟩
        ("list_boards") (JVal.obj [])).1
      = ⟨("❌ Invalid credentials: ")
          ++ ("Unauthorized - check your API key and token"), true⟩ ∧
    (TrelloTools.execute_tool (fun _ => UpstreamAnswer.httpStatus 401 ("no"))
        (fun _ => none) (("P"), ("Q")) 100
        ⟨480, some ⟨("CACHEDKEY"), ("CACHEDTOKEN"), none, none⟩, some 60⟩
        ("list_boards") (JVal.obj [])).2.1.cached_credentials
      = some ⟨("CACHEDKEY"), ("CACHEDTOKEN"), none, none⟩ ∧
    (TrelloTools.execute_tool (fun _ => UpstreamAnswer.httpStatus 401 ("no"))
        (fun _ => none) (("P"), ("Q")) 100
        ⟨480, some ⟨("CACHEDKEY"), ("CACHEDTOKEN"), none, none⟩, some 60⟩
        ("list_boards") (JVal.obj [])).2.1.credentials_timestamp = some 60 :=
  ⟨by decide, by decide, by decide⟩

/-- C3 (amended): when the upstream answers 401 to the validate-credentials
check, dispatch returns an envelope-level success whose payload is flagged
as an operation error with a message containing "Invalid credentials", and
the credential manager keeps its cache untouched (it is not cleared). -/
theorem dispatch_invalid_credentials_keeps_cache (upstream : Upstream)
    (parseIso : String → Option PyDateTime) (promptPair : String × String)
    (now dur ts : ℤ) (c : CachedCredentials) (tool_name : String)
    (args : Args) (body : String)
    (hak : argStr args ("api_key") = none)
    (hat : argStr args ("token") = none)
    (hvalid : now - ts ≤ dur)
    (hck : ((pyStrip c.api_key).isEmpty) = false)
    (hct : ((pyStrip c.token).isEmpty) = false)
    (h401 : ∀ call, upstream call = UpstreamAnswer.httpStatus 401 body) :
    TrelloTools.execute_tool upstream parseIso promptPair now
        ⟨dur, some c, some ts⟩ tool_name (JVal.obj args)
      = (⟨("❌ Invalid credentials: ")
            ++ ("Unauthorized - check your API key and token"), true⟩,
         ⟨dur, some c, some ts⟩,
         (TrelloClient.validate_credentials upstream
           ⟨pyStrip c.api_key, pyStrip c.token⟩).2) := by
  have hres : CredentialManager.get_or_prompt_credentials ⟨dur, some c, some ts⟩
      now none none promptPair
      = ((c.api_key, c.token), ⟨dur, some c, some ts⟩) := by
    unfold CredentialManager.get_or_prompt_credentials
      CredentialManager.get_or_prompt_fallback
      CredentialManager.get_cached_credentials
      CredentialManager.is_cached_valid
    have hlt : ¬ dur < now - ts := not_lt.mpr hvalid
    simp [hlt]
  have hmk : TrelloCredentials.make c.api_key c.token
      = Except.ok ⟨pyStrip c.api_key, pyStrip c.token⟩ := by
    unfold TrelloCredentials.make
    simp [hck, hct]
  have hv : (TrelloClient.validate_credentials upstream
      ⟨pyStrip c.api_key, pyStrip c.token⟩).1
      = TrelloClient.ValidationOutcome.invalid
          ("Unauthorized - check your API key and token") := by
    unfold TrelloClient.validate_credentials TrelloClient.make_request
    simp [h401]
  simp only [TrelloTools.execute_tool, hak, hat, hres, hmk, hv]

theorem dispatch_invalid_credentials_keeps_cache_witness :
    TrelloTools.execute_tool (fun _ => UpstreamAnswer.httpStatus 401 ("no"))
        (fun _ => none) (("P"), ("Q")) 100
        ⟨480, some ⟨("CACHEDKEY"), ("CACHEDTOKEN"), none, none⟩, some 60⟩
        ("list_boards") (JVal.obj [])
      = (⟨("❌ Invalid credentials: ")
            ++ ("Unauthorized - check your API key and token"), true⟩,
         ⟨480, some ⟨("CACHEDKEY"), ("CACHEDTOKEN"), none, none⟩, some 60⟩,
         (TrelloClient.validate_credentials
           (fun _ => UpstreamAnswer.httpStatus 401 ("no"))
           ⟨pyStrip ("CACHEDKEY"), pyStrip ("CACHEDTOKEN")⟩).2) :=
  dispatch_invalid_credentials_keeps_cache
    (fun _ => UpstreamAnswer.httpStatus 401 ("no")) (fun _ => none)
    (("P"), ("Q")) 100 480 60 ⟨("CACHEDKEY"), ("CACHEDTOKEN"), none, none⟩
    ("list_boards") [] ("no") rfl rfl (by decide) (by decide) (by decide)
    (fun _ => rfl)

/-- C4 is refuted on the code: dispatching an unknown tool name first
resolves and caches credentials (here via the interactive prompt, the cache
being empty) and issues the upstream validate-credentials call — which also
consumes a rate-limiter admission — before the unknown-name check runs; the
credential-manager state changes and an upstream call is recorded. -/
theorem dispatch_unknown_tool_side_effects_counterexample :
    (TrelloTools.execute_tool (fun _ => UpstreamAnswer.okJson JVal.null)
        (fun _ => none) (("PROMPTKEY"), ("PROMPTTOKEN")) 100 ⟨480, none, none⟩
        ("no_such_tool") (JVal.obj [])).1
      = ⟨("❌ Unknown tool: ") ++ ("no_such_tool"), true⟩ ∧
    (TrelloTools.execute_tool (fun _ => UpstreamAnswer.okJson JVal.null)
        (fun _ => none) (("PROMPTKEY"), ("PROMPTTOKEN")) 100 ⟨480, none, none⟩
        ("no_such_tool") (JVal.obj [])).2.1.credentials_timestamp = some 100 ∧
    (TrelloTools.execute_tool (fun _ => UpstreamAnswer.okJson JVal.null)
        (fun _ => none) (("PROMPTKEY"), ("PROMPTTOKEN")) 100 ⟨480, none, none⟩
        ("no_such_tool") (JVal.obj [])).2.1.cached_credentials
      = some ⟨("PROMPTKEY"), ("PROMPTTOKEN"), none, none⟩ ∧
    (TrelloTools.execute_tool (fun _ => UpstreamAnswer.okJson JVal.null)
        (fun _ => none) (("PROMPTKEY"), ("PROMPTTOKEN")) 100 ⟨480, none, none⟩
        ("no_such_tool") (JVal.obj [])).2.2.length = 1 :=
  ⟨by decide, by decide, by decide, by decide⟩

/-- C4 (amended): dispatch with a tool name outside the catalog yields the
unknown-tool failure payload and makes no operation-specific upstream call,
but only after credential resolution with caching (here: the interactive
prompt fills the empty cache) and the upstream validate-credentials call,
which consumes one rate-limiter admission. -/
theorem dispatch_unknown_tool_after_side_effects (upstream : Upstream)
    (parseIso : String → Option PyDateTime) (promptPair : String × String)
    (now : ℤ) (cm : CredentialManager) (tool_name : String) (args : Args)
    (info : JVal)
    (hak : argStr args ("api_key") = none)
    (hat : argStr args ("token") = none)
    (hcm : cm.cached_credentials = none)
    (hpk : ((pyStrip promptPair.1).isEmpty) = false)
    (hpt : ((pyStrip promptPair.2).isEmpty) = false)
    (hok : ∀ call, upstream call = UpstreamAnswer.okJson info)
    (hunknown : ∀ p ∈ TrelloTools.get_tools, (tool_name == p.1) = false) :
    TrelloTools.execute_tool upstream parseIso promptPair now cm tool_name
        (JVal.obj args)
      = (⟨("❌ Unknown tool: ") ++ tool_name, true⟩,
         CredentialManager.cache_credentials cm now promptPair.1 promptPair.2
           none none,
         (TrelloClient.validate_credentials upstream
           ⟨pyStrip promptPair.1, pyStrip promptPair.2⟩).2) ∧
    (TrelloClient.validate_credentials upstream
        ⟨pyStrip promptPair.1, pyStrip promptPair.2⟩).2.length = 1 := by
  have hname : ∀ s ∈ TrelloTools.get_tools.map Prod.fst,
      (tool_name == s) = false := by
    intro s hs
    rcases List.mem_map.mp hs with ⟨p, hp, rfl⟩
    exact hunknown p hp
  have h1 := hname ("list_boards") (by simp [TrelloTools.get_tools])
  have h2 := hname ("get_board") (by simp [TrelloTools.get_tools])
  have h3 := hname ("create_board") (by simp [TrelloTools.get_tools])
  have h4 := hname ("update_board") (by simp [TrelloTools.get_tools])
  have h5 := hname ("get_lists") (by simp [TrelloTools.get_tools])
  have h6 := hname ("create_list") (by simp [TrelloTools.get_tools])
  have h7 := hname ("get_cards") (by simp [TrelloTools.get_tools])
  have h8 := hname ("create_card") (by simp [TrelloTools.get_tools])
  have h9 := hname ("update_card") (by simp [TrelloTools.get_tools])
  have h10 := hname ("add_member_to_card") (by simp [TrelloTools.get_tools])
  have h11 := hname ("search_cards") (by simp [TrelloTools.get_tools])
  have hres : CredentialManager.get_or_prompt_credentials cm now none none
      promptPair
      = ((promptPair.1, promptPair.2),
         CredentialManager.cache_credentials cm now promptPair.1 promptPair.2
           none none) := by
    unfold CredentialManager.get_or_prompt_credentials
      CredentialManager.get_or_prompt_fallback
      CredentialManager.get_cached_credentials
      CredentialManager.is_cached_valid
      CredentialManager.prompt_for_credentials
    simp [hcm]
  have hmk : TrelloCredentials.make promptPair.1 promptPair.2
      = Except.ok ⟨pyStrip promptPair.1, pyStrip promptPair.2⟩ := by
    unfold TrelloCredentials.make
    simp [hpk, hpt]
  have hv : (TrelloClient.validate_credentials upstream
      ⟨pyStrip promptPair.1, pyStrip promptPair.2⟩).1
      = TrelloClient.ValidationOutcome.valid info := by
    unfold TrelloClient.validate_credentials TrelloClient.make_request
    simp [hok]
  have hlen : (TrelloClient.validate_credentials upstream
      ⟨pyStrip promptPair.1, pyStrip promptPair.2⟩).2.length = 1 := by
    unfold TrelloClient.validate_credentials TrelloClient.make_request
    simp [hok]
  refine ⟨?_, hlen⟩
  simp only [TrelloTools.execute_tool, hak, hat, hres, hmk, hv,
    h1, h2, h3, h4, h5, h6, h7, h8, h9, h10, h11,
    Bool.false_eq_true, if_false, List.append_nil]

theorem dispatch_unknown_tool_after_side_effects_witness :
    (TrelloTools.execute_tool (fun _ => UpstreamAnswer.okJson JVal.null)
        (fun _ => none) (("PROMPTKEY"), ("PROMPTTOKEN")) 100 ⟨480, none, none⟩
        ("no_such_tool") (JVal.obj [])
      = (⟨("❌ Unknown tool: ") ++ ("no_such_tool"), true⟩,
         CredentialManager.cache_credentials ⟨480, none, none⟩ 100
           ("PROMPTKEY") ("PROMPTTOKEN") none none,
         (TrelloClient.validate_credentials
           (fun _ => UpstreamAnswer.okJson JVal.null)
           ⟨pyStrip ("PROMPTKEY"), pyStrip ("PROMPTTOKEN")⟩).2)) ∧
    (TrelloClient.validate_credentials (fun _ => UpstreamAnswer.okJson JVal.null)
        ⟨pyStrip ("PROMPTKEY"), pyStrip ("PROMPTTOKEN")⟩).2.length = 1 :=
  dispatch_unknown_tool_after_side_effects
    (fun _ => UpstreamAnswer.okJson JVal.null) (fun _ => none)
    (("PROMPTKEY"), ("PROMPTTOKEN")) 100 ⟨480, none, none⟩ ("no_such_tool") []
    JVal.null rfl rfl rfl (by decide) (by decide) (fun _ => rfl) (by decide)

/-- C5 is refuted on the code: dispatching `get_board` with no `board_id`
(a parameter the catalog schema lists as required) performs no argument
validation; the operation handler and the upstream adapter are invoked,
sending `GET boards/None` upstream, and the surfaced failure is the
upstream 404 message — not an invalid-arguments failure naming the
parameter. -/
theorem dispatch_no_argument_validation_counterexample :
    (TrelloTools.execute_tool
        (fun call => if call.endpoint == ("members/me")
          then UpstreamAnswer.okJson (JVal.obj [])
          else UpstreamAnswer.httpStatus 404 ("nf"))
        (fun _ => none) (("P"), ("Q")) 100 ⟨480, none, none⟩ ("get_board")
        (JVal.obj [(("api_key"), JVal.str ("EXPLICITKEY")),
          (("token"), JVal.str ("EXPLICITTOK"))])).2.2.map UpstreamCall.endpoint
      = [("members/me"), ("boards/None")] ∧
    (TrelloTools.execute_tool
        (fun call => if call.endpoint == ("members/me")
          then UpstreamAnswer.okJson (JVal.obj [])
          else UpstreamAnswer.httpStatus 404 ("nf"))
        (fun _ => none) (("P"), ("Q")) 100 ⟨480, none, none⟩ ("get_board")
        (JVal.obj [(("api_key"), JVal.str ("EXPLICITKEY")),
          (("token"), JVal.str ("EXPLICITTOK"))])).1
      = ⟨("❌ Failed to get board: ")
          ++ ("Not found - the requested resource does not exist"), true⟩ :=
  ⟨by decide, by decide⟩

/-- C5 (amended): dispatch performs no schema validation of the arguments.
For `get_board` — whose catalog schema lists `board_id` as required — a
call without `board_id` still invokes the operation handler and the
upstream adapter: the missing value is rendered as the literal `None` in
the endpoint (`GET boards/None`), after the usual validate-credentials
call; the credential-manager state is untouched when an explicit pair was
supplied. -/
theorem dispatch_get_board_missing_board_id_reaches_upstream
    (upstream : Upstream) (parseIso : String → Option PyDateTime)
    (promptPair : String × String) (now : ℤ) (cm : CredentialManager)
    (args : Args) (k t : String) (info : JVal)
    (hak : argStr args ("api_key") = some k)
    (hat : argStr args ("token") = some t)
    (hke : k.isEmpty = false) (hte : t.isEmpty = false)
    (hk : ((pyStrip k).isEmpty) = false) (ht : ((pyStrip t).isEmpty) = false)
    (hboard : argStr args ("board_id") = none)
    (hok : ∀ call, upstream call = UpstreamAnswer.okJson info) :
    ((TrelloTools.get_tools.find? (fun p => p.1 == ("get_board"))).map
        (fun p => p.2.required) = some [("board_id")]) ∧
    (TrelloTools.execute_tool upstream parseIso promptPair now cm ("get_board")
        (JVal.obj args)).2.2.map UpstreamCall.endpoint
      = [("members/me"), ("boards/None")] ∧
    (TrelloTools.execute_tool upstream parseIso promptPair now cm ("get_board")
        (JVal.obj args)).2.1 = cm := by
  have hmk : TrelloCredentials.make k t
      = Except.ok ⟨pyStrip k, pyStrip t⟩ := by
    unfold TrelloCredentials.make
    simp [hk, ht]
  have hv : (TrelloClient.validate_credentials upstream
      ⟨pyStrip k, pyStrip t⟩).1
      = TrelloClient.ValidationOutcome.valid info := by
    unfold TrelloClient.validate_credentials TrelloClient.make_request
    simp [hok]
  refine ⟨by decide, ?_, ?_⟩ <;>
    simp [TrelloTools.execute_tool, hak, hat, hke, hte, hmk, hv,
      TrelloTools.get_board, TrelloClient.get_board,
      TrelloClient.validate_credentials, TrelloClient.make_request, hboard,
      hok, pyStrOpt]

theorem dispatch_get_board_missing_board_id_reaches_upstream_witness :
    ((TrelloTools.get_tools.find? (fun p => p.1 == ("get_board"))).map
        (fun p => p.2.required) = some [("board_id")]) ∧
    (TrelloTools.execute_tool (fun _ => UpstreamAnswer.okJson JVal.null)
        (fun _ => none) (("P"), ("Q")) 100 ⟨480, none, none⟩ ("get_board")
        (JVal.obj [(("api_key"), JVal.str ("EK")),
          (("token"), JVal.str ("ET"))])).2.2.map UpstreamCall.endpoint
      = [("members/me"), ("boards/None")] ∧
    (TrelloTools.execute_tool (fun _ => UpstreamAnswer.okJson JVal.null)
        (fun _ => none) (("P"), ("Q")) 100 ⟨480, none, none⟩ ("get_board")
        (JVal.obj [(("api_key"), JVal.str ("EK")),
          (("token"), JVal.str ("ET"))])).2.1 = ⟨480, none, none⟩ :=
  dispatch_get_board_missing_board_id_reaches_upstream
    (fun _ => UpstreamAnswer.okJson JVal.null) (fun _ => none) (("P"), ("Q"))
    100 ⟨480, none, none⟩
    [(("api_key"), JVal.str ("EK")), (("token"), JVal.str ("ET"))]
    ("EK") ("ET") JVal.null rfl rfl (by decide) (by decide) (by decide)
    (by decide) rfl (fun _ => rfl)
